import Mathlib

/-!
Shallow embedding of the decision state machine layer and parts of the workflow
environment of the cadence worker client (files `internal/activity.go` and
`internal/internal_event_handlers.go`).

Go mutation is modelled by explicit state passing; Go panics are modelled by the
`Except Panic` monad (a panic aborts the decision task, so no state after a
panic is observable).  Byte slices are `List Nat`, `time.Time` is an `Int`
(nanoseconds since epoch), and the Go `int32` counter is an `Int` with explicit
two's-complement wrapping.
-/

namespace Cadence

/-- Enumeration `decisionState` of activity.go (constants 0..9). -/
inductive DecisionState where
  | created
  | decisionSent
  | canceledBeforeInitiated
  | initiated
  | started
  | canceledAfterInitiated
  | canceledAfterStarted
  | cancellationDecisionSent
  | completedAfterCancellationDecisionSent
  | completed
deriving DecidableEq, Repr

/-- Go method `decisionState.String()`. -/
def DecisionState.toGoString : DecisionState → String
  | .created => "Created"
  | .decisionSent => "DecisionSent"
  | .canceledBeforeInitiated => "CanceledBeforeInitiated"
  | .initiated => "Initiated"
  | .started => "Started"
  | .canceledAfterInitiated => "CanceledAfterInitiated"
  | .canceledAfterStarted => "CanceledAfterStarted"
  | .cancellationDecisionSent => "CancellationDecisionSent"
  | .completedAfterCancellationDecisionSent => "CompletedAfterCancellationDecisionSent"
  | .completed => "Completed"

/-- Enumeration `decisionType` of activity.go (constants 0..6). -/
inductive DecisionType where
  | activity
  | childWorkflow
  | cancellation
  | marker
  | timer
  | signal
  | upsertSearchAttributes
deriving DecidableEq, Repr

/-- Go method `decisionType.String()`; note that the source has no case for
`decisionTypeUpsertSearchAttributes`, which therefore prints as "Unknown". -/
def DecisionType.toGoString : DecisionType → String
  | .activity => "Activity"
  | .childWorkflow => "ChildWorkflow"
  | .cancellation => "Cancellation"
  | .marker => "Marker"
  | .timer => "Timer"
  | .signal => "Signal"
  | .upsertSearchAttributes => "Unknown"

/-- Struct `decisionID` of activity.go: the `(decisionType, id)` key of the
state machine collection. -/
structure DecisionID where
  decisionType : DecisionType
  id : String
deriving DecidableEq, Repr

/-- Go function `makeDecisionID`. -/
def makeDecisionID (decisionType : DecisionType) (id : String) : DecisionID :=
  ⟨decisionType, id⟩

/-- Go method `decisionID.String()`. -/
def DecisionID.toGoString (d : DecisionID) : String :=
  "DecisionType: " ++ d.decisionType.toGoString ++ ", ID: " ++ d.id

/-- Go panics raised inside the decision state machine layer and the event
handlers.  `illegalState` is `panicIllegalState` (a `stateMachineIllegalStatePanic`
value); `unsupportedOperation` is the bare `panic("unsupported operation")` of
`naiveDecisionStateMachine`; `goPanic` stands for any other runtime panic
(failed type assertion, `panic(fmt.Sprintf(...))`, `panic(err)`). -/
inductive Panic where
  | illegalState (msg : String)
  | unsupportedOperation
  | goPanic (msg : String)
deriving DecidableEq, Repr

/-- Decision payloads (`apiv1.Decision`), restricted to the attribute fields
the state machine layer itself reads or writes.  Pure payload fields that are
copied through verbatim (timeouts, task list, inputs, headers) are elided. -/
inductive Decision where
  | scheduleActivityTask (activityID : String)
  | requestCancelActivityTask (activityID : String)
  | startTimer (timerID : String)
  | cancelTimer (timerID : String)
  | startChildWorkflowExecution (workflowID : String)
  | requestCancelExternalWorkflowExecution (domain : String) (workflowID : String)
      (runID : String) (control : String) (childWorkflowOnly : Bool)
  | signalExternalWorkflowExecution (domain : String) (workflowID : String)
      (runID : String) (signalName : String) (control : String) (childWorkflowOnly : Bool)
  | recordMarker (markerName : String) (details : List Nat)
  | upsertWorkflowSearchAttributes (fields : List (String × List Nat))
deriving DecidableEq, Repr

/-- Struct `scheduledActivity` of internal_event_handlers.go (the callback
itself is modelled by the emitted `CallbackCall` values). -/
structure ScheduledActivity where
  handled : Bool
  waitForCancelRequest : Bool
deriving DecidableEq, Repr

/-- Struct `scheduledTimer` of internal_event_handlers.go. -/
structure ScheduledTimer where
  handled : Bool
deriving DecidableEq, Repr

/-- Struct `scheduledChildWorkflow` of internal_event_handlers.go. -/
structure ScheduledChildWorkflow where
  handled : Bool
  waitForCancellation : Bool
deriving DecidableEq, Repr

/-- Struct `scheduledCancellation` of internal_event_handlers.go. -/
structure ScheduledCancellation where
  handled : Bool
deriving DecidableEq, Repr

/-- Struct `scheduledSignal` of internal_event_handlers.go. -/
structure ScheduledSignal where
  handled : Bool
deriving DecidableEq, Repr

/-- The `data interface{}` field of `decisionStateMachineBase`: it holds one of
the scheduled-waiter structs, or nothing before `setData` was called. -/
inductive MachineData where
  | noData
  | activity (s : ScheduledActivity)
  | timer (s : ScheduledTimer)
  | childWorkflow (s : ScheduledChildWorkflow)
  | cancellation (s : ScheduledCancellation)
  | signal (s : ScheduledSignal)
deriving DecidableEq, Repr

/-- The concrete state machine variant together with the attribute fields the
variant's own methods read (`activityDecisionStateMachine.attributes.ActivityId`,
`timerDecisionStateMachine.attributes.TimerId`, the child workflow's domain and
workflow id, and the pre-built `decision` stored in a
`naiveDecisionStateMachine`). -/
inductive MachineKind where
  | activity (activityID : String)
  | timer (timerID : String)
  | childWorkflow (domain : String) (workflowID : String)
  | cancelExternalWorkflow (decision : Decision)
  | signalExternalWorkflow (decision : Decision)
  | marker (decision : Decision)
  | upsert (decision : Decision)
deriving DecidableEq, Repr

/-- One decision state machine: the fields of `decisionStateMachineBase`
(`id`, `state`, `history`, `data`) plus the variant-specific fields
(`timerDecisionStateMachine.canceled` is false and unread for every other
variant). The `helper` back pointer is modelled by performing the
collection removal of `moveState` at the collection level. -/
structure StateMachine where
  kind : MachineKind
  id : DecisionID
  state : DecisionState
  history : List String
  canceled : Bool
  data : MachineData
deriving DecidableEq, Repr

/-- Go prints a `[]string` as the elements separated by blanks in brackets. -/
def goStringSlice (l : List String) : String :=
  "[" ++ String.intercalate " " l ++ "]"

/-- Method `decisionStateMachineBase.isDone()`.  Because Go struct embedding
is not virtual dispatch, `decisionStateMachineBase.String()` always calls this
base implementation, even for a timer machine. -/
def StateMachine.baseIsDone (m : StateMachine) : Bool :=
  m.state = .completed || m.state = .completedAfterCancellationDecisionSent

/-- Method `decisionStateMachineBase.String()`:
`"%v, state=%v, isDone()=%v, history=%v"`. -/
def StateMachine.toGoString (m : StateMachine) : String :=
  m.id.toGoString ++ ", state=" ++ m.state.toGoString ++ ", isDone()=" ++
    (if m.baseIsDone then "true" else "false") ++ ", history=" ++ goStringSlice m.history

/-- String constants `eventCancel` .. `eventCanceled` of activity.go. -/
def eventCancel : String := "cancel"
def eventDecisionSent : String := "handleDecisionSent"
def eventInitiated : String := "handleInitiatedEvent"
def eventInitiationFailed : String := "handleInitiationFailedEvent"
def eventStarted : String := "handleStartedEvent"
def eventCompletion : String := "handleCompletionEvent"
def eventCancelInitiated : String := "handleCancelInitiatedEvent"
def eventCancelFailed : String := "handleCancelFailedEvent"
def eventCanceled : String := "handleCanceledEvent"

/-- Marker name constants of activity.go. -/
def sideEffectMarkerName : String := "SideEffect"
def versionMarkerName : String := "Version"
def localActivityMarkerName : String := "LocalActivity"
def mutableSideEffectMarkerName : String := "MutableSideEffect"

/-- Method `decisionStateMachineBase.moveState`, minus the collection removal
(performed by `DecisionsHelper.storeBack` below, since the `helper` back
pointer is modelled at the collection level). -/
def StateMachine.moveState (m : StateMachine) (newState : DecisionState) (event : String) :
    StateMachine :=
  { m with state := newState, history := m.history ++ [event, newState.toGoString] }

/-- Go function `panicIllegalState` applied to the message of
`decisionStateMachineBase.failStateTransition`. -/
def StateMachine.failStateTransition (m : StateMachine) (event : String) : Panic :=
  .illegalState ("invalid state transition: attempt to " ++ event ++ ", " ++ m.toGoString)

/-- Method `decisionStateMachineBase.handleDecisionSent` (the `switch` has no
default case, so every other state is left unchanged). -/
def StateMachine.baseHandleDecisionSent (m : StateMachine) : StateMachine :=
  match m.state with
  | .created => m.moveState .decisionSent eventDecisionSent
  | _ => m

/-- Method `decisionStateMachineBase.cancel`. -/
def StateMachine.baseCancel (m : StateMachine) : Except Panic StateMachine :=
  match m.state with
  | .completed => .ok m
  | .completedAfterCancellationDecisionSent => .ok m
  | .created => .ok (m.moveState .completed eventCancel)
  | .decisionSent => .ok (m.moveState .canceledBeforeInitiated eventCancel)
  | .initiated => .ok (m.moveState .canceledAfterInitiated eventCancel)
  | _ => .error (m.failStateTransition eventCancel)

/-- Method `decisionStateMachineBase.handleInitiatedEvent`. -/
def StateMachine.baseHandleInitiatedEvent (m : StateMachine) : Except Panic StateMachine :=
  match m.state with
  | .decisionSent => .ok (m.moveState .initiated eventInitiated)
  | .canceledBeforeInitiated => .ok (m.moveState .canceledAfterInitiated eventInitiated)
  | _ => .error (m.failStateTransition eventInitiated)

/-- Method `decisionStateMachineBase.handleInitiationFailedEvent`. -/
def StateMachine.baseHandleInitiationFailedEvent (m : StateMachine) : Except Panic StateMachine :=
  match m.state with
  | .initiated => .ok (m.moveState .completed eventInitiationFailed)
  | .decisionSent => .ok (m.moveState .completed eventInitiationFailed)
  | .canceledBeforeInitiated => .ok (m.moveState .completed eventInitiationFailed)
  | _ => .error (m.failStateTransition eventInitiationFailed)

/-- Method `decisionStateMachineBase.handleStartedEvent` (appends to the
history trail only). -/
def StateMachine.baseHandleStartedEvent (m : StateMachine) : StateMachine :=
  { m with history := m.history ++ [eventStarted] }

/-- Method `decisionStateMachineBase.handleCompletionEvent`. -/
def StateMachine.baseHandleCompletionEvent (m : StateMachine) : Except Panic StateMachine :=
  match m.state with
  | .canceledAfterInitiated => .ok (m.moveState .completed eventCompletion)
  | .initiated => .ok (m.moveState .completed eventCompletion)
  | .cancellationDecisionSent =>
      .ok (m.moveState .completedAfterCancellationDecisionSent eventCompletion)
  | _ => .error (m.failStateTransition eventCompletion)

/-- Method `decisionStateMachineBase.handleCancelInitiatedEvent` (history is
appended before the state check, matching the source order). -/
def StateMachine.baseHandleCancelInitiatedEvent (m : StateMachine) : Except Panic StateMachine :=
  let m1 : StateMachine := { m with history := m.history ++ [eventCancelInitiated] }
  match m1.state with
  | .cancellationDecisionSent => .ok m1
  | _ => .error (m1.failStateTransition eventCancelInitiated)

/-- Method `decisionStateMachineBase.handleCancelFailedEvent`. -/
def StateMachine.baseHandleCancelFailedEvent (m : StateMachine) : Except Panic StateMachine :=
  match m.state with
  | .completedAfterCancellationDecisionSent => .ok (m.moveState .completed eventCancelFailed)
  | _ => .error (m.failStateTransition eventCancelFailed)

/-- Method `decisionStateMachineBase.handleCanceledEvent`. -/
def StateMachine.baseHandleCanceledEvent (m : StateMachine) : Except Panic StateMachine :=
  match m.state with
  | .cancellationDecisionSent => .ok (m.moveState .completed eventCanceled)
  | _ => .error (m.failStateTransition eventCanceled)

/-- Virtual dispatch of `handleDecisionSent` over the machine variants:
activity, timer and child workflow override the `decisionStateCanceledAfterInitiated`
(resp. `CanceledAfterStarted`) case; marker and upsert machines complete as
soon as the decision is sent; the two naive external-workflow machines use the
base implementation. -/
def StateMachine.handleDecisionSent (m : StateMachine) : StateMachine :=
  match m.kind with
  | .activity _ =>
      match m.state with
      | .canceledAfterInitiated => m.moveState .cancellationDecisionSent eventDecisionSent
      | _ => m.baseHandleDecisionSent
  | .timer _ =>
      match m.state with
      | .canceledAfterInitiated => m.moveState .cancellationDecisionSent eventDecisionSent
      | _ => m.baseHandleDecisionSent
  | .childWorkflow _ _ =>
      match m.state with
      | .canceledAfterStarted => m.moveState .cancellationDecisionSent eventDecisionSent
      | _ => m.baseHandleDecisionSent
  | .cancelExternalWorkflow _ => m.baseHandleDecisionSent
  | .signalExternalWorkflow _ => m.baseHandleDecisionSent
  | .marker _ =>
      match m.state with
      | .created => m.moveState .completed eventDecisionSent
      | _ => m
  | .upsert _ =>
      match m.state with
      | .created => m.moveState .completed eventDecisionSent
      | _ => m

/-- Virtual dispatch of `cancel`: the timer sets its `canceled` flag first;
the child workflow adds the `Started → CanceledAfterStarted` case; the naive
machines panic with "unsupported operation". -/
def StateMachine.cancel (m : StateMachine) : Except Panic StateMachine :=
  match m.kind with
  | .activity _ => m.baseCancel
  | .timer _ => StateMachine.baseCancel { m with canceled := true }
  | .childWorkflow _ _ =>
      match m.state with
      | .started => .ok (m.moveState .canceledAfterStarted eventCancel)
      | _ => m.baseCancel
  | .cancelExternalWorkflow _ => .error .unsupportedOperation
  | .signalExternalWorkflow _ => .error .unsupportedOperation
  | .marker _ => .error .unsupportedOperation
  | .upsert _ => .error .unsupportedOperation

/-- Virtual dispatch of `handleInitiatedEvent`: the cancel- and
signal-external machines override it with a `DecisionSent → Initiated` only
transition; marker and upsert inherit the naive panic. -/
def StateMachine.handleInitiatedEvent (m : StateMachine) : Except Panic StateMachine :=
  match m.kind with
  | .activity _ => m.baseHandleInitiatedEvent
  | .timer _ => m.baseHandleInitiatedEvent
  | .childWorkflow _ _ => m.baseHandleInitiatedEvent
  | .cancelExternalWorkflow _ =>
      match m.state with
      | .decisionSent => .ok (m.moveState .initiated eventInitiated)
      | _ => .error (m.failStateTransition eventInitiated)
  | .signalExternalWorkflow _ =>
      match m.state with
      | .decisionSent => .ok (m.moveState .initiated eventInitiated)
      | _ => .error (m.failStateTransition eventInitiated)
  | .marker _ => .error .unsupportedOperation
  | .upsert _ => .error .unsupportedOperation

/-- Virtual dispatch of `handleInitiationFailedEvent`. -/
def StateMachine.handleInitiationFailedEvent (m : StateMachine) : Except Panic StateMachine :=
  match m.kind with
  | .activity _ => m.baseHandleInitiationFailedEvent
  | .timer _ => m.baseHandleInitiationFailedEvent
  | .childWorkflow _ _ => m.baseHandleInitiationFailedEvent
  | _ => .error .unsupportedOperation

/-- Virtual dispatch of `handleStartedEvent`: the child workflow moves
`Initiated → Started` and `CanceledAfterInitiated → CanceledAfterStarted`;
naive machines panic, the rest only append history. -/
def StateMachine.handleStartedEvent (m : StateMachine) : Except Panic StateMachine :=
  match m.kind with
  | .activity _ => .ok m.baseHandleStartedEvent
  | .timer _ => .ok m.baseHandleStartedEvent
  | .childWorkflow _ _ =>
      match m.state with
      | .initiated => .ok (m.moveState .started eventStarted)
      | .canceledAfterInitiated => .ok (m.moveState .canceledAfterStarted eventStarted)
      | _ => .ok m.baseHandleStartedEvent
  | _ => .error .unsupportedOperation

/-- Virtual dispatch of `handleCompletionEvent`: child workflow adds the
`Started`/`CanceledAfterStarted` cases, cancel- and signal-external complete
from `Initiated` only, marker and upsert panic. -/
def StateMachine.handleCompletionEvent (m : StateMachine) : Except Panic StateMachine :=
  match m.kind with
  | .activity _ => m.baseHandleCompletionEvent
  | .timer _ => m.baseHandleCompletionEvent
  | .childWorkflow _ _ =>
      match m.state with
      | .started => .ok (m.moveState .completed eventCompletion)
      | .canceledAfterStarted => .ok (m.moveState .completed eventCompletion)
      | _ => m.baseHandleCompletionEvent
  | .cancelExternalWorkflow _ =>
      match m.state with
      | .initiated => .ok (m.moveState .completed eventCompletion)
      | _ => .error (m.failStateTransition eventCompletion)
  | .signalExternalWorkflow _ =>
      match m.state with
      | .initiated => .ok (m.moveState .completed eventCompletion)
      | _ => .error (m.failStateTransition eventCompletion)
  | .marker _ => .error .unsupportedOperation
  | .upsert _ => .error .unsupportedOperation

/-- Virtual dispatch of `handleCancelInitiatedEvent` (only the three non-naive
variants inherit the base behaviour). -/
def StateMachine.handleCancelInitiatedEvent (m : StateMachine) : Except Panic StateMachine :=
  match m.kind with
  | .activity _ => m.baseHandleCancelInitiatedEvent
  | .timer _ => m.baseHandleCancelInitiatedEvent
  | .childWorkflow _ _ => m.baseHandleCancelInitiatedEvent
  | _ => .error .unsupportedOperation

/-- Virtual dispatch of `handleCancelFailedEvent`: activity and timer move
`CancellationDecisionSent → Initiated`, child workflow moves it to `Started`;
naive machines panic. -/
def StateMachine.handleCancelFailedEvent (m : StateMachine) : Except Panic StateMachine :=
  match m.kind with
  | .activity _ =>
      match m.state with
      | .cancellationDecisionSent => .ok (m.moveState .initiated eventCancelFailed)
      | _ => m.baseHandleCancelFailedEvent
  | .timer _ =>
      match m.state with
      | .cancellationDecisionSent => .ok (m.moveState .initiated eventCancelFailed)
      | _ => m.baseHandleCancelFailedEvent
  | .childWorkflow _ _ =>
      match m.state with
      | .cancellationDecisionSent => .ok (m.moveState .started eventCancelFailed)
      | _ => m.baseHandleCancelFailedEvent
  | _ => .error .unsupportedOperation

/-- Virtual dispatch of `handleCanceledEvent`: child workflow adds the
`Started → Completed` case; naive machines panic. -/
def StateMachine.handleCanceledEvent (m : StateMachine) : Except Panic StateMachine :=
  match m.kind with
  | .activity _ => m.baseHandleCanceledEvent
  | .timer _ => m.baseHandleCanceledEvent
  | .childWorkflow _ _ =>
      match m.state with
      | .started => .ok (m.moveState .completed eventCanceled)
      | _ => m.baseHandleCanceledEvent
  | _ => .error .unsupportedOperation

/-- Virtual dispatch of `isDone()`: the timer overrides it to
`state == Completed || canceled`. -/
def StateMachine.isDone (m : StateMachine) : Bool :=
  match m.kind with
  | .timer _ => m.state = .completed || m.canceled
  | _ => m.baseIsDone

/-- Virtual dispatch of the `getDecision()` method: the pending decision the
machine emits in its current state, if any. -/
def StateMachine.getDecision (m : StateMachine) : Option Decision :=
  match m.kind with
  | .activity activityID =>
      match m.state with
      | .created => some (.scheduleActivityTask activityID)
      | .canceledAfterInitiated => some (.requestCancelActivityTask activityID)
      | _ => none
  | .timer timerID =>
      match m.state with
      | .created => some (.startTimer timerID)
      | .canceledAfterInitiated => some (.cancelTimer timerID)
      | _ => none
  | .childWorkflow domain workflowID =>
      match m.state with
      | .created => some (.startChildWorkflowExecution workflowID)
      | .canceledAfterStarted =>
          some (.requestCancelExternalWorkflowExecution domain workflowID "" "" true)
      | _ => none
  | .cancelExternalWorkflow d =>
      match m.state with
      | .created => some d
      | _ => none
  | .signalExternalWorkflow d =>
      match m.state with
      | .created => some d
      | _ => none
  | .marker d =>
      match m.state with
      | .created => some d
      | _ => none
  | .upsert d =>
      match m.state with
      | .created => some d
      | _ => none

/-- Struct `decisionsHelper` of activity.go.  The Go struct keeps the ordered
linked list `orderedDecisions` plus the index map `decisions` from decisionID to
list element; every operation updates the two together, so the model keeps the
single insertion-ordered list and performs lookups on it.  The three
`scheduledEventID` maps are association lists. -/
structure DecisionsHelper where
  orderedDecisions : List StateMachine
  scheduledEventIDToActivityID : List (Int × String)
  scheduledEventIDToCancellationID : List (Int × String)
  scheduledEventIDToSignalID : List (Int × String)
deriving DecidableEq, Repr

/-- Go function `newDecisionsHelper`. -/
def newDecisionsHelper : DecisionsHelper := ⟨[], [], [], []⟩

/-- Lookup in an association list modelling a Go map. -/
def goMapLookup {α β : Type} [DecidableEq α] : List (α × β) → α → Option β
  | [], _ => none
  | (k, v) :: rest, key => if k = key then some v else goMapLookup rest key

/-- Insertion into an association list modelling a Go map (replaces an
existing binding). -/
def goMapInsert {α β : Type} [DecidableEq α] : List (α × β) → α → β → List (α × β)
  | [], key, val => [(key, val)]
  | (k, v) :: rest, key, val =>
      if k = key then (key, val) :: rest else (k, v) :: goMapInsert rest key val

/-- Lookup of the `decisions` index map: the first machine in the ordered list
with the given decision id. -/
def DecisionsHelper.find (h : DecisionsHelper) (id : DecisionID) : Option StateMachine :=
  h.orderedDecisions.find? (fun m => decide (m.id = id))

/-- Removal of the first machine with the given id from the ordered list. -/
def eraseById : List StateMachine → DecisionID → List StateMachine
  | [], _ => []
  | m :: rest, id => if m.id = id then rest else m :: eraseById rest id

/-- Panic message of `decisionsHelper.getDecision` for an unknown id. -/
def unknownDecisionMsg (id : DecisionID) : String :=
  "unknown decision " ++ id.toGoString ++
    ", possible causes are nondeterministic workflow definition code" ++
    " or incompatible change in the workflow definition"

/-- Method `decisionsHelper.getDecision`: panics when the id is unknown,
otherwise moves the machine's list element to the back of the ordered list
(`orderedDecisions.MoveToBack`) and returns the machine. -/
def DecisionsHelper.getDecision (h : DecisionsHelper) (id : DecisionID) :
    Except Panic (DecisionsHelper × StateMachine) :=
  match h.find id with
  | none => .error (.illegalState (unknownDecisionMsg id))
  | some m => .ok ({ h with orderedDecisions := eraseById h.orderedDecisions id ++ [m] }, m)

/-- Write back of a machine mutated through the pointer `getDecision`
returned: the machine sits at the back of the ordered list, and the collection
removal performed by `moveState` when the new state is `decisionStateCompleted`
is applied here. -/
def DecisionsHelper.storeBack (h : DecisionsHelper) (m : StateMachine) : DecisionsHelper :=
  { h with orderedDecisions :=
      h.orderedDecisions.dropLast ++ (if m.state = .completed then [] else [m]) }

/-- The common shape of every `decisionsHelper` event routing method:
`getDecision` followed by one state machine method invoked on the returned
pointer.  Returns the mutated machine alongside the mutated collection. -/
def DecisionsHelper.withDecision (h : DecisionsHelper) (id : DecisionID)
    (f : StateMachine → Except Panic StateMachine) :
    Except Panic (DecisionsHelper × StateMachine) :=
  match h.getDecision id with
  | .error e => .error e
  | .ok (h1, m) =>
      match f m with
      | .error e => .error e
      | .ok m1 => .ok (h1.storeBack m1, m1)

/-- Method `decisionsHelper.addDecision`: panics on a duplicate
`(decisionType, id)` key, otherwise pushes the machine onto the back of the
ordered list and indexes it. -/
def DecisionsHelper.addDecision (h : DecisionsHelper) (m : StateMachine) :
    Except Panic DecisionsHelper :=
  match h.find m.id with
  | some _ => .error (.illegalState ("adding duplicate decision " ++ m.toGoString))
  | none => .ok { h with orderedDecisions := h.orderedDecisions ++ [m] }

/-- Method `decisionsHelper.newDecisionStateMachineBase` together with the
variant constructor wrapping it: state `Created`, history `["Created"]`. -/
def newStateMachine (kind : MachineKind) (decisionType : DecisionType) (id : String) :
    StateMachine :=
  { kind := kind, id := makeDecisionID decisionType id, state := .created,
    history := [DecisionState.created.toGoString], canceled := false, data := .noData }

/-- Constructor `newActivityDecisionStateMachine` (keyed by the attributes'
activity id). -/
def newActivityDecisionStateMachine (activityID : String) : StateMachine :=
  newStateMachine (.activity activityID) .activity activityID

/-- Constructor `newTimerDecisionStateMachine` (keyed by the attributes'
timer id). -/
def newTimerDecisionStateMachine (timerID : String) : StateMachine :=
  newStateMachine (.timer timerID) .timer timerID

/-- Constructor `newChildWorkflowDecisionStateMachine` (keyed by the
attributes' workflow id). -/
def newChildWorkflowDecisionStateMachine (domain workflowID : String) : StateMachine :=
  newStateMachine (.childWorkflow domain workflowID) .childWorkflow workflowID

/-- Constructor `newMarkerDecisionStateMachine` (a naive machine storing a
pre-built `RecordMarker` decision). -/
def newMarkerDecisionStateMachine (id : String) (markerName : String) (details : List Nat) :
    StateMachine :=
  newStateMachine (.marker (.recordMarker markerName details)) .marker id

/-- Constructor `newCancelExternalWorkflowStateMachine`. -/
def newCancelExternalWorkflowStateMachine (domain workflowID runID cancellationID : String) :
    StateMachine :=
  newStateMachine
    (.cancelExternalWorkflow
      (.requestCancelExternalWorkflowExecution domain workflowID runID cancellationID false))
    .cancellation cancellationID

/-- Constructor `newSignalExternalWorkflowStateMachine`. -/
def newSignalExternalWorkflowStateMachine (domain workflowID runID signalName signalID : String)
    (childWorkflowOnly : Bool) : StateMachine :=
  newStateMachine
    (.signalExternalWorkflow
      (.signalExternalWorkflowExecution domain workflowID runID signalName signalID
        childWorkflowOnly))
    .signal signalID

/-- Constructor `newUpsertSearchAttributesStateMachine`. -/
def newUpsertSearchAttributesStateMachine (upsertID : String)
    (fields : List (String × List Nat)) : StateMachine :=
  newStateMachine (.upsert (.upsertWorkflowSearchAttributes fields)) .upsertSearchAttributes
    upsertID

/-- Method `decisionsHelper.scheduleActivityTask`. -/
def DecisionsHelper.scheduleActivityTask (h : DecisionsHelper) (activityID : String) :
    Except Panic (DecisionsHelper × StateMachine) :=
  let m := newActivityDecisionStateMachine activityID
  match h.addDecision m with
  | .error e => .error e
  | .ok h1 => .ok (h1, m)

/-- Method `decisionsHelper.startTimer`. -/
def DecisionsHelper.startTimer (h : DecisionsHelper) (timerID : String) :
    Except Panic (DecisionsHelper × StateMachine) :=
  let m := newTimerDecisionStateMachine timerID
  match h.addDecision m with
  | .error e => .error e
  | .ok h1 => .ok (h1, m)

/-- Method `decisionsHelper.startChildWorkflowExecution`. -/
def DecisionsHelper.startChildWorkflowExecution (h : DecisionsHelper)
    (domain workflowID : String) : Except Panic (DecisionsHelper × StateMachine) :=
  let m := newChildWorkflowDecisionStateMachine domain workflowID
  match h.addDecision m with
  | .error e => .error e
  | .ok h1 => .ok (h1, m)

/-- Method `decisionsHelper.requestCancelActivityTask`. -/
def DecisionsHelper.requestCancelActivityTask (h : DecisionsHelper) (activityID : String) :
    Except Panic (DecisionsHelper × StateMachine) :=
  h.withDecision (makeDecisionID .activity activityID) StateMachine.cancel

/-- Method `decisionsHelper.handleActivityTaskClosed`. -/
def DecisionsHelper.handleActivityTaskClosed (h : DecisionsHelper) (activityID : String) :
    Except Panic (DecisionsHelper × StateMachine) :=
  h.withDecision (makeDecisionID .activity activityID) StateMachine.handleCompletionEvent

/-- Method `decisionsHelper.handleActivityTaskScheduled` (records the
`scheduledEventID → activityID` mapping, then routes the initiated event). -/
def DecisionsHelper.handleActivityTaskScheduled (h : DecisionsHelper)
    (scheduledEventID : Int) (activityID : String) :
    Except Panic DecisionsHelper :=
  let h0 := { h with scheduledEventIDToActivityID :=
                goMapInsert h.scheduledEventIDToActivityID scheduledEventID activityID }
  match h0.withDecision (makeDecisionID .activity activityID)
      StateMachine.handleInitiatedEvent with
  | .error e => .error e
  | .ok (h1, _) => .ok h1

/-- Method `decisionsHelper.handleActivityTaskCancelRequested`. -/
def DecisionsHelper.handleActivityTaskCancelRequested (h : DecisionsHelper)
    (activityID : String) : Except Panic DecisionsHelper :=
  match h.withDecision (makeDecisionID .activity activityID)
      StateMachine.handleCancelInitiatedEvent with
  | .error e => .error e
  | .ok (h1, _) => .ok h1

/-- Method `decisionsHelper.handleActivityTaskCanceled`. -/
def DecisionsHelper.handleActivityTaskCanceled (h : DecisionsHelper) (activityID : String) :
    Except Panic (DecisionsHelper × StateMachine) :=
  h.withDecision (makeDecisionID .activity activityID) StateMachine.handleCanceledEvent

/-- Method `decisionsHelper.handleRequestCancelActivityTaskFailed`. -/
def DecisionsHelper.handleRequestCancelActivityTaskFailed (h : DecisionsHelper)
    (activityID : String) : Except Panic DecisionsHelper :=
  match h.withDecision (makeDecisionID .activity activityID)
      StateMachine.handleCancelFailedEvent with
  | .error e => .error e
  | .ok (h1, _) => .ok h1

/-- Method `decisionsHelper.getActivityID`: resolves the scheduled event id
carried by an activity closure event, panicking when the mapping is absent
(the event payload dump of the Go message is elided). -/
def DecisionsHelper.getActivityID (h : DecisionsHelper) (scheduledEventID : Int) :
    Except Panic String :=
  match goMapLookup h.scheduledEventIDToActivityID scheduledEventID with
  | none => .error (.illegalState "unable to find activity ID for the event")
  | some activityID => .ok activityID

/-- Method `decisionsHelper.cancelTimer`. -/
def DecisionsHelper.cancelTimer (h : DecisionsHelper) (timerID : String) :
    Except Panic (DecisionsHelper × StateMachine) :=
  h.withDecision (makeDecisionID .timer timerID) StateMachine.cancel

/-- Method `decisionsHelper.handleTimerClosed`. -/
def DecisionsHelper.handleTimerClosed (h : DecisionsHelper) (timerID : String) :
    Except Panic (DecisionsHelper × StateMachine) :=
  h.withDecision (makeDecisionID .timer timerID) StateMachine.handleCompletionEvent

/-- Method `decisionsHelper.handleTimerStarted`. -/
def DecisionsHelper.handleTimerStarted (h : DecisionsHelper) (timerID : String) :
    Except Panic DecisionsHelper :=
  match h.withDecision (makeDecisionID .timer timerID) StateMachine.handleInitiatedEvent with
  | .error e => .error e
  | .ok (h1, _) => .ok h1

/-- Method `decisionsHelper.handleTimerCanceled`. -/
def DecisionsHelper.handleTimerCanceled (h : DecisionsHelper) (timerID : String) :
    Except Panic DecisionsHelper :=
  match h.withDecision (makeDecisionID .timer timerID) StateMachine.handleCanceledEvent with
  | .error e => .error e
  | .ok (h1, _) => .ok h1

/-- Method `decisionsHelper.handleCancelTimerFailed`. -/
def DecisionsHelper.handleCancelTimerFailed (h : DecisionsHelper) (timerID : String) :
    Except Panic DecisionsHelper :=
  match h.withDecision (makeDecisionID .timer timerID) StateMachine.handleCancelFailedEvent with
  | .error e => .error e
  | .ok (h1, _) => .ok h1

/-- Method `decisionsHelper.handleChildWorkflowExecutionStarted`. -/
def DecisionsHelper.handleChildWorkflowExecutionStarted (h : DecisionsHelper)
    (workflowID : String) : Except Panic (DecisionsHelper × StateMachine) :=
  h.withDecision (makeDecisionID .childWorkflow workflowID) StateMachine.handleStartedEvent

/-- Method `decisionsHelper.handleChildWorkflowExecutionClosed`. -/
def DecisionsHelper.handleChildWorkflowExecutionClosed (h : DecisionsHelper)
    (workflowID : String) : Except Panic (DecisionsHelper × StateMachine) :=
  h.withDecision (makeDecisionID .childWorkflow workflowID) StateMachine.handleCompletionEvent

/-- Method `decisionsHelper.recordSideEffectMarker`. -/
def DecisionsHelper.recordSideEffectMarker (h : DecisionsHelper) (sideEffectID : Int)
    (data : List Nat) : Except Panic (DecisionsHelper × StateMachine) :=
  let markerID := sideEffectMarkerName ++ "_" ++ toString sideEffectID
  let m := newMarkerDecisionStateMachine markerID sideEffectMarkerName data
  match h.addDecision m with
  | .error e => .error e
  | .ok h1 => .ok (h1, m)

/-- Method `decisionsHelper.recordVersionMarker`: the marker details are
produced by `encodeArgs(dataConverter, [changeID, version])`; the pluggable
data converter is passed in as `enc` and its failure is the `panic(err)` of
the source. -/
def DecisionsHelper.recordVersionMarker (h : DecisionsHelper) (changeID : String)
    (version : Int) (enc : String → Int → Except String (List Nat)) :
    Except Panic (DecisionsHelper × StateMachine) :=
  let markerID := versionMarkerName ++ "_" ++ changeID
  match enc changeID version with
  | .error err => .error (.goPanic err)
  | .ok details =>
      let m := newMarkerDecisionStateMachine markerID versionMarkerName details
      match h.addDecision m with
      | .error e => .error e
      | .ok h1 => .ok (h1, m)

/-- Method `decisionsHelper.upsertSearchAttributes`. -/
def DecisionsHelper.upsertSearchAttributes (h : DecisionsHelper) (upsertID : String)
    (fields : List (String × List Nat)) : Except Panic (DecisionsHelper × StateMachine) :=
  let m := newUpsertSearchAttributesStateMachine upsertID fields
  match h.addDecision m with
  | .error e => .error e
  | .ok h1 => .ok (h1, m)

/-- The loop body of `decisionsHelper.getDecisions`: collect each machine's
pending decision front to back, optionally mark it sent, and drop machines
whose state is `decisionStateCompleted`. -/
def getDecisionsLoop (markAsSent : Bool) : List StateMachine → List Decision × List StateMachine
  | [] => ([], [])
  | m :: rest =>
      let payload := m.getDecision
      let m1 := if markAsSent then m.handleDecisionSent else m
      let (ds, ms) := getDecisionsLoop markAsSent rest
      (payload.toList ++ ds, (if m1.state = .completed then [] else [m1]) ++ ms)

/-- Method `decisionsHelper.getDecisions`. -/
def DecisionsHelper.getDecisions (h : DecisionsHelper) (markAsSent : Bool) :
    List Decision × DecisionsHelper :=
  let (ds, ms) := getDecisionsLoop markAsSent h.orderedDecisions
  (ds, { h with orderedDecisions := ms })

/-- Method `decisionsHelper.getSignalID`. -/
def DecisionsHelper.getSignalID (h : DecisionsHelper) (initiatedEventID : Int) :
    Except Panic String :=
  match goMapLookup h.scheduledEventIDToSignalID initiatedEventID with
  | none => .error (.goPanic ("unable to find signal ID: " ++ toString initiatedEventID))
  | some signalID => .ok signalID

/-- Method `decisionsHelper.handleSignalExternalWorkflowExecutionCompleted`. -/
def DecisionsHelper.handleSignalExternalWorkflowExecutionCompleted (h : DecisionsHelper)
    (initiatedEventID : Int) : Except Panic (DecisionsHelper × StateMachine) :=
  match h.getSignalID initiatedEventID with
  | .error e => .error e
  | .ok signalID =>
      h.withDecision (makeDecisionID .signal signalID) StateMachine.handleCompletionEvent

/-- Method `decisionsHelper.handleExternalWorkflowExecutionCancelRequested`:
when the initiated event id is not in the cancellation map the event is for a
child workflow and there is no state change (the machine is only looked up);
otherwise the external cancellation machine receives its completion event.
Returns the `isExternal` flag alongside. -/
def DecisionsHelper.handleExternalWorkflowExecutionCancelRequested (h : DecisionsHelper)
    (initiatedEventID : Int) (workflowID : String) :
    Except Panic (DecisionsHelper × Bool × StateMachine) :=
  match goMapLookup h.scheduledEventIDToCancellationID initiatedEventID with
  | none =>
      match h.getDecision (makeDecisionID .childWorkflow workflowID) with
      | .error e => .error e
      | .ok (h1, m) => .ok (h1, false, m)
  | some cancellationID =>
      match h.withDecision (makeDecisionID .cancellation cancellationID)
          StateMachine.handleCompletionEvent with
      | .error e => .error e
      | .ok (h1, m) => .ok (h1, true, m)

/-- The mutation performed through the `setData` pointer on the machine's
`data` field: visible in the collection only while the machine is still
indexed there. -/
def DecisionsHelper.setData (h : DecisionsHelper) (id : DecisionID) (d : MachineData) :
    DecisionsHelper :=
  { h with orderedDecisions :=
      h.orderedDecisions.map (fun m => if m.id = id then { m with data := d } else m) }

/-- Errors delivered to the waiters' result callbacks: `ErrCanceled` and every
other non-nil Go error value (projected to its message tag). -/
inductive WFError where
  | canceled
  | errorTag (msg : String)
deriving DecidableEq, Repr

/-- One invocation of a waiter's result callback with its two arguments. -/
structure CallbackCall where
  result : Option (List Nat)
  err : Option WFError
deriving DecidableEq, Repr

/-- Method `scheduledActivity.handle`: panics when already handled, otherwise
flips `handled` and fires the callback exactly once (the `%v` dump of the
waiter in the panic message is elided). -/
def ScheduledActivity.handle (s : ScheduledActivity) (result : Option (List Nat))
    (err : Option WFError) : Except Panic (ScheduledActivity × CallbackCall) :=
  if s.handled then .error (.goPanic "activity already handled")
  else .ok ({ s with handled := true }, ⟨result, err⟩)

/-- Method `scheduledTimer.handle`. -/
def ScheduledTimer.handle (s : ScheduledTimer) (result : Option (List Nat))
    (err : Option WFError) : Except Panic (ScheduledTimer × CallbackCall) :=
  if s.handled then .error (.goPanic "timer already handled")
  else .ok ({ s with handled := true }, ⟨result, err⟩)

/-- Method `scheduledChildWorkflow.handle` (fires the result callback). -/
def ScheduledChildWorkflow.handle (s : ScheduledChildWorkflow) (result : Option (List Nat))
    (err : Option WFError) : Except Panic (ScheduledChildWorkflow × CallbackCall) :=
  if s.handled then .error (.goPanic "child workflow already handled")
  else .ok ({ s with handled := true }, ⟨result, err⟩)

/-- Method `scheduledCancellation.handle`. -/
def ScheduledCancellation.handle (s : ScheduledCancellation) (result : Option (List Nat))
    (err : Option WFError) : Except Panic (ScheduledCancellation × CallbackCall) :=
  if s.handled then .error (.goPanic "cancellation already handled")
  else .ok ({ s with handled := true }, ⟨result, err⟩)

/-- Method `scheduledSignal.handle`. -/
def ScheduledSignal.handle (s : ScheduledSignal) (result : Option (List Nat))
    (err : Option WFError) : Except Panic (ScheduledSignal × CallbackCall) :=
  if s.handled then .error (.goPanic "signal already handled")
  else .ok ({ s with handled := true }, ⟨result, err⟩)

/-- Two's-complement wrap of the Go `int32` counter. -/
def int32Wrap (n : Int) : Int := (n + 2 ^ 31) % 2 ^ 32 - 2 ^ 31

/-- Struct `workflowEnvironmentImpl`, restricted to the fields the claims
touch: the sequence counter, the replay flag, the replay clock (`time.Time`
as nanoseconds), the side-effect / change-version / mutable-side-effect
caches, the pending local activity task ids, and the decisions helper.
Logger, metrics, data converter and session table are elided. -/
structure WorkflowEnv where
  counterID : Int
  isReplay : Bool
  currentReplayTime : Int
  sideEffectResult : List (Int × List Nat)
  changeVersions : List (String × Int)
  mutableSideEffect : List (String × List Nat)
  pendingLaTasks : List String
  decisionsHelper : DecisionsHelper
deriving DecidableEq, Repr

/-- Method `workflowEnvironmentImpl.GenerateSequence`: returns the counter and
post-increments it (Go `int32` increment wraps). -/
def WorkflowEnv.GenerateSequence (env : WorkflowEnv) : Int × WorkflowEnv :=
  (env.counterID, { env with counterID := int32Wrap (env.counterID + 1) })

/-- Method `workflowEnvironmentImpl.GenerateSequenceID` (`fmt.Sprintf("%d", seq)`). -/
def WorkflowEnv.GenerateSequenceID (env : WorkflowEnv) : String × WorkflowEnv :=
  let (seq, env1) := env.GenerateSequence
  (toString seq, env1)

/-- Method `workflowEnvironmentImpl.SetCurrentReplayTime`: a timestamp
strictly before the current replay time is ignored (`currentLocalTime`, used
only for local activity drift, is elided). -/
def WorkflowEnv.SetCurrentReplayTime (env : WorkflowEnv) (replayTime : Int) : WorkflowEnv :=
  if replayTime < env.currentReplayTime then env
  else { env with currentReplayTime := replayTime }

/-- Method `workflowEnvironmentImpl.Now`. -/
def WorkflowEnv.Now (env : WorkflowEnv) : Int := env.currentReplayTime

/-- Method `workflowEnvironmentImpl.ExecuteActivity`, reduced to its state
machine effects: choose the activity id (the generated sequence id when the
parameter is absent or empty), create and add the activity machine, and set
its waiter data.  Payload marshalling of the schedule attributes is elided. -/
def WorkflowEnv.ExecuteActivity (env : WorkflowEnv) (parameterActivityID : Option String)
    (waitForCancellation : Bool) : Except Panic (WorkflowEnv × String) :=
  let (activityID, env1) :=
    match parameterActivityID with
    | none => env.GenerateSequenceID
    | some id => if id = "" then env.GenerateSequenceID else (id, env)
  match env1.decisionsHelper.scheduleActivityTask activityID with
  | .error e => .error e
  | .ok (h, m) =>
      let h1 := h.setData m.id (.activity ⟨false, waitForCancellation⟩)
      .ok ({ env1 with decisionsHelper := h1 }, activityID)

/-- Method `workflowEnvironmentImpl.NewTimer`, reduced to its state machine
effects for a strictly positive duration: generate the timer id, create and
add the timer machine, set its waiter data.  (Negative and zero durations
return before touching the collection and are handled by the caller of this
model.) -/
def WorkflowEnv.NewTimer (env : WorkflowEnv) : Except Panic (WorkflowEnv × String) :=
  let (timerID, env1) := env.GenerateSequenceID
  match env1.decisionsHelper.startTimer timerID with
  | .error e => .error e
  | .ok (h, m) =>
      let h1 := h.setData m.id (.timer ⟨false⟩)
      .ok ({ env1 with decisionsHelper := h1 }, timerID)

/-- Method `workflowEnvironmentImpl.RequestCancelActivity`: route the cancel
through the state machine; when the waiter is already handled return silently;
otherwise fire the callback with `ErrCanceled` if the machine is done or the
activity does not wait for the cancellation confirmation. -/
def WorkflowEnv.RequestCancelActivity (env : WorkflowEnv) (activityID : String) :
    Except Panic (WorkflowEnv × List CallbackCall) :=
  match env.decisionsHelper.requestCancelActivityTask activityID with
  | .error e => .error e
  | .ok (h, decision) =>
      match decision.data with
      | .activity activity =>
          if activity.handled then .ok ({ env with decisionsHelper := h }, [])
          else if decision.isDone || !activity.waitForCancelRequest then
            match activity.handle none (some .canceled) with
            | .error e => .error e
            | .ok (a1, call) =>
                .ok ({ env with decisionsHelper := h.setData decision.id (.activity a1) },
                  [call])
          else .ok ({ env with decisionsHelper := h }, [])
      | _ => .error (.goPanic "interface conversion: data is not *scheduledActivity")

/-- Method `workflowEnvironmentImpl.RequestCancelTimer`: cancel the timer
machine and, unless the waiter is already handled, fire the callback with
`ErrCanceled`. -/
def WorkflowEnv.RequestCancelTimer (env : WorkflowEnv) (timerID : String) :
    Except Panic (WorkflowEnv × List CallbackCall) :=
  match env.decisionsHelper.cancelTimer timerID with
  | .error e => .error e
  | .ok (h, decision) =>
      match decision.data with
      | .timer timer =>
          if timer.handled then .ok ({ env with decisionsHelper := h }, [])
          else
            match timer.handle none (some .canceled) with
            | .error e => .error e
            | .ok (t1, call) =>
                .ok ({ env with decisionsHelper := h.setData decision.id (.timer t1) }, [call])
      | _ => .error (.goPanic "interface conversion: data is not *scheduledTimer")

/-- Method `workflowExecutionEventHandlerImpl.handleActivityTaskCompleted`:
resolve the activity id from the scheduled event id, route the completion
event, and fire the callback with the result unless already handled. -/
def WorkflowEnv.handleActivityTaskCompleted (env : WorkflowEnv) (scheduledEventID : Int)
    (result : List Nat) : Except Panic (WorkflowEnv × List CallbackCall) :=
  match env.decisionsHelper.getActivityID scheduledEventID with
  | .error e => .error e
  | .ok activityID =>
      match env.decisionsHelper.handleActivityTaskClosed activityID with
      | .error e => .error e
      | .ok (h, decision) =>
          match decision.data with
          | .activity activity =>
              if activity.handled then .ok ({ env with decisionsHelper := h }, [])
              else
                match activity.handle (some result) none with
                | .error e => .error e
                | .ok (a1, call) =>
                    .ok ({ env with decisionsHelper := h.setData decision.id (.activity a1) },
                      [call])
          | _ => .error (.goPanic "interface conversion: data is not *scheduledActivity")

/-- Method `workflowExecutionEventHandlerImpl.handleActivityTaskCanceled`:
route the canceled event; fire the callback with a `CanceledError` only when
the machine is done or the activity does not wait for cancel confirmation. -/
def WorkflowEnv.handleActivityTaskCanceled (env : WorkflowEnv) (scheduledEventID : Int) :
    Except Panic (WorkflowEnv × List CallbackCall) :=
  match env.decisionsHelper.getActivityID scheduledEventID with
  | .error e => .error e
  | .ok activityID =>
      match env.decisionsHelper.handleActivityTaskCanceled activityID with
      | .error e => .error e
      | .ok (h, decision) =>
          match decision.data with
          | .activity activity =>
              if activity.handled then .ok ({ env with decisionsHelper := h }, [])
              else if decision.isDone || !activity.waitForCancelRequest then
                match activity.handle none (some .canceled) with
                | .error e => .error e
                | .ok (a1, call) =>
                    .ok ({ env with decisionsHelper := h.setData decision.id (.activity a1) },
                      [call])
              else .ok ({ env with decisionsHelper := h }, [])
          | _ => .error (.goPanic "interface conversion: data is not *scheduledActivity")

/-- Method `workflowExecutionEventHandlerImpl.handleTimerFired`. -/
def WorkflowEnv.handleTimerFired (env : WorkflowEnv) (timerID : String) :
    Except Panic (WorkflowEnv × List CallbackCall) :=
  match env.decisionsHelper.handleTimerClosed timerID with
  | .error e => .error e
  | .ok (h, decision) =>
      match decision.data with
      | .timer timer =>
          if timer.handled then .ok ({ env with decisionsHelper := h }, [])
          else
            match timer.handle none none with
            | .error e => .error e
            | .ok (t1, call) =>
                .ok ({ env with decisionsHelper := h.setData decision.id (.timer t1) }, [call])
      | _ => .error (.goPanic "interface conversion: data is not *scheduledTimer")

/-- Method `workflowExecutionEventHandlerImpl.handleChildWorkflowExecutionCompleted`. -/
def WorkflowEnv.handleChildWorkflowExecutionCompleted (env : WorkflowEnv)
    (workflowID : String) (result : List Nat) :
    Except Panic (WorkflowEnv × List CallbackCall) :=
  match env.decisionsHelper.handleChildWorkflowExecutionClosed workflowID with
  | .error e => .error e
  | .ok (h, decision) =>
      match decision.data with
      | .childWorkflow childWorkflow =>
          if childWorkflow.handled then .ok ({ env with decisionsHelper := h }, [])
          else
            match childWorkflow.handle (some result) none with
            | .error e => .error e
            | .ok (c1, call) =>
                .ok ({ env with decisionsHelper :=
                        h.setData decision.id (.childWorkflow c1) }, [call])
      | _ => .error (.goPanic "interface conversion: data is not *scheduledChildWorkflow")

/-- Method
`workflowExecutionEventHandlerImpl.handleSignalExternalWorkflowExecutionCompleted`. -/
def WorkflowEnv.handleSignalExternalWorkflowExecutionCompleted (env : WorkflowEnv)
    (initiatedEventID : Int) : Except Panic (WorkflowEnv × List CallbackCall) :=
  match env.decisionsHelper.handleSignalExternalWorkflowExecutionCompleted initiatedEventID with
  | .error e => .error e
  | .ok (h, decision) =>
      match decision.data with
      | .signal signal =>
          if signal.handled then .ok ({ env with decisionsHelper := h }, [])
          else
            match signal.handle none none with
            | .error e => .error e
            | .ok (s1, call) =>
                .ok ({ env with decisionsHelper := h.setData decision.id (.signal s1) }, [call])
      | _ => .error (.goPanic "interface conversion: data is not *scheduledSignal")

/-- Method
`workflowExecutionEventHandlerImpl.handleExternalWorkflowExecutionCancelRequested`:
only the external (non-child) case resolves the waiter and fires its
callback. -/
def WorkflowEnv.handleExternalWorkflowExecutionCancelRequested (env : WorkflowEnv)
    (initiatedEventID : Int) (workflowID : String) :
    Except Panic (WorkflowEnv × List CallbackCall) :=
  match env.decisionsHelper.handleExternalWorkflowExecutionCancelRequested initiatedEventID
      workflowID with
  | .error e => .error e
  | .ok (h, isExternal, decision) =>
      if isExternal then
        match decision.data with
        | .cancellation cancellation =>
            if cancellation.handled then .ok ({ env with decisionsHelper := h }, [])
            else
              match cancellation.handle none none with
              | .error e => .error e
              | .ok (c1, call) =>
                  .ok ({ env with decisionsHelper :=
                          h.setData decision.id (.cancellation c1) }, [call])
        | _ => .error (.goPanic "interface conversion: data is not *scheduledCancellation")
      else .ok ({ env with decisionsHelper := h }, [])

/-- Panic message of the replay-mode cache miss in
`workflowEnvironmentImpl.SideEffect` (the `KnownSideEffects` key dump, whose
order depends on Go map iteration, is elided). -/
def noCachedSideEffectMsg (sideEffectID : Int) : String :=
  "No cached result found for side effectID=" ++ toString sideEffectID

/-- Method `workflowEnvironmentImpl.SideEffect`.  The user function `f` is
modelled by its evaluation result (a byte slice and an optional error); the
pluggable data converter behind `encodeArgs(dataConverter, [sideEffectID,
result])` is the explicit `enc` argument.  Returns the updated environment and
the list of callback invocations the call performed. -/
def WorkflowEnv.SideEffect (env : WorkflowEnv) (f : List Nat × Option WFError)
    (enc : Int → List Nat → Except String (List Nat)) :
    Except Panic (WorkflowEnv × List CallbackCall) :=
  let (sideEffectID, env1) := env.GenerateSequence
  if env1.isReplay then
    match goMapLookup env1.sideEffectResult sideEffectID with
    | none => .error (.goPanic (noCachedSideEffectMsg sideEffectID))
    | some result =>
        let details := result
        match env1.decisionsHelper.recordSideEffectMarker sideEffectID details with
        | .error e => .error e
        | .ok (h, _) => .ok ({ env1 with decisionsHelper := h }, [⟨some result, none⟩])
  else
    match f with
    | (result, some err) => .ok (env1, [⟨some result, some err⟩])
    | (result, none) =>
        match enc sideEffectID result with
        | .error err =>
            .ok (env1, [⟨none, some (.errorTag ("failure encoding sideEffectID: " ++ err))⟩])
        | .ok details =>
            match env1.decisionsHelper.recordSideEffectMarker sideEffectID details with
            | .error e => .error e
            | .ok (h, _) => .ok ({ env1 with decisionsHelper := h }, [⟨some result, none⟩])

/-- Search attribute key reserved for change versions.  Modelled from the
spec: the constant `CadenceChangeVersion` is declared outside the files under
src; the spec fixes the key name and
`Test_CreateSearchAttributesForChangeVersion` pins it. -/
def CadenceChangeVersion : String := "CadenceChangeVersion"

/-- Version constant returned by `GetVersion` on first replay encounter.
Modelled from the spec: `DefaultVersion` is declared outside the files under
src; its value -1 is pinned by `Test_GetChangeVersion` (expects "cid--1"). -/
def DefaultVersion : Int := -1

/-- Go function `getChangeVersion` (`fmt.Sprintf("%s-%v", changeID, version)`). -/
def getChangeVersion (changeID : String) (version : Int) : String :=
  changeID ++ "-" ++ toString version

/-- Go function `getChangeVersions`: the new pair first, then the existing
map entries (the Go map iteration order is modelled as the association list
order). -/
def getChangeVersions (changeID : String) (version : Int)
    (existingChangeVersions : List (String × Int)) : List String :=
  getChangeVersion changeID version ::
    existingChangeVersions.map (fun p => getChangeVersion p.1 p.2)

/-- Panic message of `validateVersion` when the recorded version is below the
supported minimum. -/
def versionTooLowMsg (changeID : String) (version minSupported : Int) : String :=
  "Workflow code removed support of version " ++ toString version ++ ". for \"" ++
    changeID ++ "\" changeID. The oldest supported version is " ++ toString minSupported

/-- Panic message of `validateVersion` when the recorded version is above the
supported maximum. -/
def versionTooHighMsg (changeID : String) (version maxSupported : Int) : String :=
  "Workflow code is too old to support version " ++ toString version ++ " for \"" ++
    changeID ++ "\" changeID. The maximum supported version is " ++ toString maxSupported

/-- Go function `validateVersion` of internal_event_handlers.go. -/
def validateVersion (changeID : String) (version minSupported maxSupported : Int) :
    Except Panic Unit :=
  if version < minSupported then
    .error (.goPanic (versionTooLowMsg changeID version minSupported))
  else if version > maxSupported then
    .error (.goPanic (versionTooHighMsg changeID version maxSupported))
  else .ok ()

/-- Method `workflowEnvironmentImpl.UpsertSearchAttributes` specialised to the
attribute map `{CadenceChangeVersion: values}` built by
`createSearchAttributesForChangeVersion` (the map is non-empty, so
`validateAndSerializeSearchAttributes` reduces to serialisation, modelled by
the explicit `serializeSA`); the upsert id is the first change-version string.
Returns the error value of the Go method alongside (the caller `GetVersion`
discards it). -/
def WorkflowEnv.UpsertSearchAttributesChangeVersion (env : WorkflowEnv)
    (values : List String) (serializeSA : List String → Except String (List Nat)) :
    Except Panic (WorkflowEnv × Option String) :=
  match serializeSA values with
  | .error err => .ok (env, some err)
  | .ok attr =>
      match values with
      | [] => .error (.goPanic "index out of range")
      | upsertID :: _ =>
          match env.decisionsHelper.upsertSearchAttributes upsertID
              [(CadenceChangeVersion, attr)] with
          | .error e => .error e
          | .ok (h, _) => .ok ({ env with decisionsHelper := h }, none)

/-- Method `workflowEnvironmentImpl.GetVersion`: return an already recorded
version after validation; on first encounter return `DefaultVersion` when
replaying, or `maxSupported` when live after recording a version marker and
upserting the change-version search attribute; validate and record the chosen
version. -/
def WorkflowEnv.GetVersion (env : WorkflowEnv) (changeID : String)
    (minSupported maxSupported : Int) (enc : String → Int → Except String (List Nat))
    (serializeSA : List String → Except String (List Nat)) :
    Except Panic (WorkflowEnv × Int) :=
  match goMapLookup env.changeVersions changeID with
  | some version =>
      match validateVersion changeID version minSupported maxSupported with
      | .error e => .error e
      | .ok _ => .ok (env, version)
  | none =>
      if env.isReplay then
        match validateVersion changeID DefaultVersion minSupported maxSupported with
        | .error e => .error e
        | .ok _ =>
            .ok ({ env with changeVersions :=
                    goMapInsert env.changeVersions changeID DefaultVersion }, DefaultVersion)
      else
        match env.decisionsHelper.recordVersionMarker changeID maxSupported enc with
        | .error e => .error e
        | .ok (h, _) =>
            let env1 := { env with decisionsHelper := h }
            match env1.UpsertSearchAttributesChangeVersion
                (getChangeVersions changeID maxSupported env1.changeVersions) serializeSA with
            | .error e => .error e
            | .ok (env2, _) =>
                match validateVersion changeID maxSupported minSupported maxSupported with
                | .error e => .error e
                | .ok _ =>
                    .ok ({ env2 with changeVersions :=
                            goMapInsert env2.changeVersions changeID maxSupported },
                      maxSupported)

/-- History events projected to their effect on the replay clock.  Exactly two
branches of `workflowExecutionEventHandlerImpl.ProcessEvent` call
`SetCurrentReplayTime`: the `DecisionTaskStarted` case (with the event's
server timestamp) and — inside `handleMarkerRecorded` /
`handleLocalActivityMarker` — a `MarkerRecorded` event named `LocalActivity`
whose activity id has a pending local activity task (with the marker's
recorded `ReplayTime`).  Every other event branch leaves `currentReplayTime`
untouched and is `otherEvent`. -/
inductive ClockEvent where
  | decisionTaskStarted (eventTime : Int)
  | markerRecordedLocalActivity (activityID : String) (replayTime : Int)
  | otherEvent
deriving DecidableEq, Repr

/-- Whether a clock event is a `DecisionTaskStarted` history event. -/
def ClockEvent.isDecisionTaskStarted : ClockEvent → Bool
  | .decisionTaskStarted _ => true
  | _ => false

/-- Whether a clock event is a `LocalActivity` marker-recorded history event. -/
def ClockEvent.isLocalActivityMarker : ClockEvent → Bool
  | .markerRecordedLocalActivity _ _ => true
  | _ => false

/-- Clock effect of `ProcessEvent`: the `DecisionTaskStarted` branch sets the
replay clock from the event time; the `LocalActivity` marker branch, when the
activity id is a pending local activity task, removes the task and sets the
replay clock from the marker's recorded replay time; every other branch leaves
the clock unchanged. -/
def WorkflowEnv.processEventClock (env : WorkflowEnv) (e : ClockEvent) : WorkflowEnv :=
  match e with
  | .decisionTaskStarted t => env.SetCurrentReplayTime t
  | .markerRecordedLocalActivity activityID t =>
      if env.pendingLaTasks.contains activityID then
        { env.SetCurrentReplayTime t with pendingLaTasks := env.pendingLaTasks.erase activityID }
      else env
  | .otherEvent => env

/-- Constant `queryResultSizeLimit` of internal_event_handlers.go (2MB). -/
def queryResultSizeLimit : Nat := 2000000

/-- Built-in query type for stack traces.  Modelled from the spec: the
constant `QueryTypeStackTrace` is declared outside the files under src; the
spec and the tests fix the string `__stack_trace`. -/
def QueryTypeStackTrace : String := "__stack_trace"

/-- Built-in query type for open sessions.  Modelled from the spec: the
constant `QueryTypeOpenSessions` is declared outside the files under src; the
spec fixes the string `__open_sessions`. -/
def QueryTypeOpenSessions : String := "__open_sessions"

/-- The fields of the event handler that `ProcessQuery` reads: the encodings
of the two built-in query answers and the user-registered query handler. -/
structure QueryEnv where
  stackTraceEncoded : Except String (List Nat)
  openSessionsEncoded : Except String (List Nat)
  queryHandler : String → List Nat → Except String (List Nat)

/-- Method `workflowExecutionEventHandlerImpl.ProcessQuery`: built-in query
types short-circuit; otherwise the user handler runs, its error propagates,
and an oversized result is rejected with the exact size-limit message. -/
def ProcessQuery (env : QueryEnv) (queryType : String) (queryArgs : List Nat) :
    Except String (List Nat) :=
  if queryType = QueryTypeStackTrace then env.stackTraceEncoded
  else if queryType = QueryTypeOpenSessions then env.openSessionsEncoded
  else
    match env.queryHandler queryType queryArgs with
    | .error e => .error e
    | .ok result =>
        if result.length > queryResultSizeLimit then
          .error ("query result size (" ++ toString result.length ++ ") exceeds limit (" ++
            toString queryResultSizeLimit ++ ")")
        else .ok result

/-! ### General lemmas about the embedding -/

theorem moveState_kind (m : StateMachine) (s : DecisionState) (e : String) :
    (m.moveState s e).kind = m.kind := rfl

theorem moveState_state (m : StateMachine) (s : DecisionState) (e : String) :
    (m.moveState s e).state = s := rfl

theorem moveState_canceled (m : StateMachine) (s : DecisionState) (e : String) :
    (m.moveState s e).canceled = m.canceled := rfl

set_option linter.unnecessarySeqFocus false in
/-- A successful timer `cancel` always leaves the `canceled` flag set. -/
theorem timer_cancel_sets_flag (m m' : StateMachine) (tid : String)
    (hk : m.kind = .timer tid) (hc : m.cancel = .ok m') :
    m'.canceled = true ∧ m'.kind = .timer tid := by
  unfold StateMachine.cancel at hc
  rw [hk] at hc
  unfold StateMachine.baseCancel at hc
  cases hstate : m.state <;>
    simp [hstate, StateMachine.moveState] at hc <;>
    simp [← hc, hk, StateMachine.moveState]

set_option linter.unnecessarySeqFocus false in
/-- Claim C8: for every timer decision state machine, `isDone()` is true as
soon as `cancel()` has run — including in the intermediate states
`CanceledBeforeInitiated`, `CanceledAfterInitiated` and
`CancellationDecisionSent` reached before any server confirmation, since the
`canceled` flag is set unconditionally and survives every later transition —
and also whenever the state is `Completed`. -/
theorem timer_isDone_once_canceled (m : StateMachine) (tid : String)
    (hk : m.kind = .timer tid) :
    (m.canceled = true → m.isDone = true) ∧
    (m.state = .completed → m.isDone = true) ∧
    (∀ m', m.cancel = .ok m' → m'.isDone = true ∧ m'.canceled = true) ∧
    (m.canceled = true → (m.handleDecisionSent).isDone = true) ∧
    (m.canceled = true → ∀ m', m.handleInitiatedEvent = .ok m' → m'.isDone = true) ∧
    (m.canceled = true → ∀ m', m.handleCanceledEvent = .ok m' → m'.isDone = true) := by
  refine ⟨?_, ?_, ?_, ?_, ?_, ?_⟩
  · intro hflag
    simp [StateMachine.isDone, hk, hflag]
  · intro hstate
    simp [StateMachine.isDone, hk, hstate]
  · intro m' hc
    obtain ⟨hflag, hkind⟩ := timer_cancel_sets_flag m m' tid hk hc
    exact ⟨by simp [StateMachine.isDone, hkind, hflag], hflag⟩
  · intro hflag
    unfold StateMachine.handleDecisionSent
    rw [hk]
    cases hstate : m.state <;>
      simp [hstate, StateMachine.baseHandleDecisionSent, StateMachine.moveState,
        StateMachine.isDone, hk, hflag]
  · intro hflag m' hi
    unfold StateMachine.handleInitiatedEvent at hi
    rw [hk] at hi
    unfold StateMachine.baseHandleInitiatedEvent at hi
    cases hstate : m.state <;> simp [hstate] at hi <;>
      simp [← hi, StateMachine.isDone, StateMachine.moveState, hk, hflag]
  · intro hflag m' hi
    unfold StateMachine.handleCanceledEvent at hi
    rw [hk] at hi
    unfold StateMachine.baseHandleCanceledEvent at hi
    cases hstate : m.state <;> simp [hstate] at hi <;>
      simp [← hi, StateMachine.isDone, StateMachine.moveState, hk, hflag]

/-- Concrete timer machine of the `timer_isDone_once_canceled` witness, as it
stands after `handleDecisionSent` and a `cancel`. -/
def witnessCanceledTimer : StateMachine :=
  { kind := .timer "5", id := makeDecisionID .timer "5", state := .canceledBeforeInitiated,
    history := ["Created", "handleDecisionSent", "DecisionSent", "cancel",
                "CanceledBeforeInitiated"],
    canceled := true, data := .noData }

/-- Witness for `timer_isDone_once_canceled` at a concrete timer machine. -/
theorem timer_isDone_once_canceled_witness :
    ((newTimerDecisionStateMachine "5").moveState .decisionSent eventDecisionSent).cancel =
      .ok witnessCanceledTimer ∧
    witnessCanceledTimer.isDone = true := by
  refine ⟨rfl, ?_⟩
  exact ((timer_isDone_once_canceled
      ((newTimerDecisionStateMachine "5").moveState .decisionSent eventDecisionSent) "5"
      rfl).2.2.1 witnessCanceledTimer rfl).1

/-- Claim C10: adding a decision state machine whose `(decisionType, id)` key
is already in the collection raises the "adding duplicate decision"
illegal-state panic (before any mutation, so the collection is untouched);
consequently scheduling a second activity with the same activity id, or a
second timer with the same timer id, aborts the decision task instead of
overwriting the existing intent, while a fresh key is appended at the back. -/
theorem addDecision_duplicate_panics (h : DecisionsHelper) (m : StateMachine) :
    (∀ m0, h.find m.id = some m0 →
      h.addDecision m =
        .error (.illegalState ("adding duplicate decision " ++ m.toGoString))) ∧
    (h.find m.id = none →
      h.addDecision m = .ok { h with orderedDecisions := h.orderedDecisions ++ [m] }) ∧
    (∀ activityID m0, h.find (makeDecisionID .activity activityID) = some m0 →
      h.scheduleActivityTask activityID =
        .error (.illegalState ("adding duplicate decision " ++
          (newActivityDecisionStateMachine activityID).toGoString))) ∧
    (∀ timerID m0, h.find (makeDecisionID .timer timerID) = some m0 →
      h.startTimer timerID =
        .error (.illegalState ("adding duplicate decision " ++
          (newTimerDecisionStateMachine timerID).toGoString))) := by
  refine ⟨?_, ?_, ?_, ?_⟩
  · intro m0 hfind
    simp [DecisionsHelper.addDecision, hfind]
  · intro hfind
    simp [DecisionsHelper.addDecision, hfind]
  · intro activityID m0 hfind
    have hid : (newActivityDecisionStateMachine activityID).id =
        makeDecisionID .activity activityID := rfl
    simp [DecisionsHelper.scheduleActivityTask, DecisionsHelper.addDecision, hid, hfind]
  · intro timerID m0 hfind
    have hid : (newTimerDecisionStateMachine timerID).id =
        makeDecisionID .timer timerID := rfl
    simp [DecisionsHelper.startTimer, DecisionsHelper.addDecision, hid, hfind]

/-- Concrete helper of the `addDecision_duplicate_panics` witness: it already
holds activity "1". -/
def witnessDuplicateHelper : DecisionsHelper :=
  ⟨[newActivityDecisionStateMachine "1"], [], [], []⟩

/-- Witness for `addDecision_duplicate_panics`: a helper already holding
activity "1" rejects a second activity "1" and a bare duplicate add, while
timer "1" (a different key) is accepted. -/
theorem addDecision_duplicate_panics_witness :
    witnessDuplicateHelper.scheduleActivityTask "1" =
        .error (.illegalState ("adding duplicate decision " ++
          (newActivityDecisionStateMachine "1").toGoString)) ∧
    witnessDuplicateHelper.addDecision (newActivityDecisionStateMachine "1") =
        .error (.illegalState ("adding duplicate decision " ++
          (newActivityDecisionStateMachine "1").toGoString)) ∧
    witnessDuplicateHelper.addDecision (newTimerDecisionStateMachine "1") =
        .ok ⟨[newActivityDecisionStateMachine "1", newTimerDecisionStateMachine "1"],
          [], [], []⟩ := by
  refine ⟨?_, ?_, ?_⟩
  · exact (addDecision_duplicate_panics witnessDuplicateHelper
      (newActivityDecisionStateMachine "1")).2.2.1
      "1" (newActivityDecisionStateMachine "1") rfl
  · exact (addDecision_duplicate_panics witnessDuplicateHelper
      (newActivityDecisionStateMachine "1")).1
      (newActivityDecisionStateMachine "1") rfl
  · exact (addDecision_duplicate_panics witnessDuplicateHelper
      (newTimerDecisionStateMachine "1")).2.1 rfl

/-- Claim C9: `ProcessQuery` with a non-built-in query type invokes the
user-registered query handler; a handler error propagates; a successful result
longer than the 2000000-byte limit is rejected with the exact message
"query result size (N) exceeds limit (2000000)", and results at or under the
limit are returned unchanged. -/
theorem processQuery_size_limit (env : QueryEnv) (queryType : String) (args : List Nat)
    (h1 : queryType ≠ QueryTypeStackTrace) (h2 : queryType ≠ QueryTypeOpenSessions) :
    (∀ e, env.queryHandler queryType args = .error e →
      ProcessQuery env queryType args = .error e) ∧
    (∀ r, env.queryHandler queryType args = .ok r → r.length ≤ queryResultSizeLimit →
      ProcessQuery env queryType args = .ok r) ∧
    (∀ r, env.queryHandler queryType args = .ok r → r.length > queryResultSizeLimit →
      ProcessQuery env queryType args =
        .error ("query result size (" ++ toString r.length ++ ") exceeds limit (" ++
          toString queryResultSizeLimit ++ ")")) := by
  refine ⟨?_, ?_, ?_⟩
  · intro e he
    simp [ProcessQuery, h1, h2, he]
  · intro r hr hlen
    simp [ProcessQuery, h1, h2, hr]
    omega
  · intro r hr hlen
    simp [ProcessQuery, h1, h2, hr, hlen]

/-- Concrete query environment of the `processQuery_size_limit` witness: the
registered handler for query type "large_query" returns 3000000 bytes. -/
def witnessQueryEnv : QueryEnv :=
  ⟨.ok [], .ok [], fun queryType _ =>
    if queryType = "large_query" then .ok (List.replicate 3000000 0) else .error "unknown"⟩

/-- Witness for `processQuery_size_limit`: a 3000000-byte result yields
exactly "query result size (3000000) exceeds limit (2000000)". -/
theorem processQuery_size_limit_witness :
    ProcessQuery witnessQueryEnv "large_query" [] =
      .error "query result size (3000000) exceeds limit (2000000)" := by
  have h := (processQuery_size_limit witnessQueryEnv "large_query" []
      (by decide) (by decide)).2.2 (List.replicate 3000000 0) rfl
      (by rw [List.length_replicate]; norm_num [queryResultSizeLimit])
  rw [h, List.length_replicate]
  rfl

/-- Concrete environment showing the replay clock is written outside the
`DecisionTaskStarted` branch: one pending local activity task "1" and a
current replay time of 5. -/
def clockCounterexampleEnv : WorkflowEnv :=
  ⟨0, true, 5, [], [], [], ["1"], newDecisionsHelper⟩

/-- Counterexample to claim C7 as stated: processing a `MarkerRecorded`
history event carrying a `LocalActivity` marker for pending task "1" advances
the replay clock from 5 to 100, although the event is not a
`DecisionTaskStarted` event (`handleLocalActivityMarker` calls
`SetCurrentReplayTime(lamd.ReplayTime)`). -/
theorem clock_updated_by_local_activity_marker :
    (clockCounterexampleEnv.processEventClock
        (.markerRecordedLocalActivity "1" 100)).Now = 100 ∧
    clockCounterexampleEnv.Now = 5 ∧
    (ClockEvent.markerRecordedLocalActivity "1" 100).isDecisionTaskStarted = false := by
  refine ⟨?_, rfl, rfl⟩
  rfl

/-- Fold of the clock effects of a batch of history events. -/
def processEventsClock (env : WorkflowEnv) (es : List ClockEvent) : WorkflowEnv :=
  es.foldl WorkflowEnv.processEventClock env

theorem setCurrentReplayTime_monotone (env : WorkflowEnv) (t : Int) :
    env.Now ≤ (env.SetCurrentReplayTime t).Now := by
  unfold WorkflowEnv.SetCurrentReplayTime WorkflowEnv.Now
  split
  · exact le_refl _
  · simp at *
    omega

theorem processEventClock_monotone (env : WorkflowEnv) (e : ClockEvent) :
    env.Now ≤ (env.processEventClock e).Now := by
  cases e with
  | decisionTaskStarted t => exact setCurrentReplayTime_monotone env t
  | markerRecordedLocalActivity laID t =>
      simp only [WorkflowEnv.processEventClock]
      cases hmem : env.pendingLaTasks.contains laID with
      | true =>
          simp only [hmem, if_true]
          exact setCurrentReplayTime_monotone env t
      | false =>
          simp only [hmem, Bool.false_eq_true, if_false]
          exact le_refl _
  | otherEvent => exact le_refl _

/-- Claim C7 (amended): `SetCurrentReplayTime` ignores a strictly earlier
timestamp and otherwise advances the clock; within `ProcessEvent` the clock is
written only in the `DecisionTaskStarted` branch and in the `LocalActivity`
marker branch (not exclusively on `DecisionTaskStarted` events); consequently
`Now()` is non-decreasing over the processing of any event sequence. -/
theorem replay_clock_monotone (env : WorkflowEnv) (t : Int) (e : ClockEvent)
    (es : List ClockEvent) :
    (t < env.currentReplayTime → env.SetCurrentReplayTime t = env) ∧
    (env.currentReplayTime ≤ t → (env.SetCurrentReplayTime t).Now = t) ∧
    env.Now ≤ (env.SetCurrentReplayTime t).Now ∧
    env.Now ≤ (env.processEventClock e).Now ∧
    (e.isDecisionTaskStarted = false → e.isLocalActivityMarker = false →
      env.processEventClock e = env) ∧
    env.Now ≤ (processEventsClock env es).Now := by
  refine ⟨?_, ?_, setCurrentReplayTime_monotone env t, processEventClock_monotone env e,
    ?_, ?_⟩
  · intro hlt
    unfold WorkflowEnv.SetCurrentReplayTime
    simp [hlt]
  · intro hle
    unfold WorkflowEnv.SetCurrentReplayTime WorkflowEnv.Now
    split
    · omega
    · rfl
  · intro hd hl
    cases e with
    | decisionTaskStarted t0 => simp [ClockEvent.isDecisionTaskStarted] at hd
    | markerRecordedLocalActivity laID t0 => simp [ClockEvent.isLocalActivityMarker] at hl
    | otherEvent => rfl
  · induction es generalizing env with
    | nil => exact le_refl _
    | cons e0 rest ih =>
        exact le_trans (processEventClock_monotone env e0)
          (ih (env.processEventClock e0))

/-- Witness for `replay_clock_monotone` at concrete inputs. -/
theorem replay_clock_monotone_witness :
    WorkflowEnv.SetCurrentReplayTime clockCounterexampleEnv 3 = clockCounterexampleEnv ∧
    (WorkflowEnv.SetCurrentReplayTime clockCounterexampleEnv 9).Now = 9 ∧
    WorkflowEnv.processEventClock clockCounterexampleEnv .otherEvent =
      clockCounterexampleEnv := by
  refine ⟨?_, ?_, ?_⟩
  · exact (replay_clock_monotone clockCounterexampleEnv 3 .otherEvent []).1 (by decide)
  · exact (replay_clock_monotone clockCounterexampleEnv 9 .otherEvent []).2.1 (by decide)
  · exact (replay_clock_monotone clockCounterexampleEnv 0 .otherEvent []).2.2.2.2.1 rfl rfl

/-- Claim C3: `SideEffect` in replay mode takes the result from the
side-effect cache keyed by the generated side-effect id and panics on a cache
miss; live it runs `f`, encodes the result and records a `SideEffect` marker
decision; in both the replay-hit and the live-success case a marker machine is
appended to the collection and the callback fires exactly once with a nil
error (an error from `f` is instead passed to the callback with no marker). -/
theorem sideEffect_cases (env : WorkflowEnv) (f : List Nat × Option WFError)
    (enc : Int → List Nat → Except String (List Nat)) :
    (env.isReplay = true → goMapLookup env.sideEffectResult env.counterID = none →
      env.SideEffect f enc = .error (.goPanic (noCachedSideEffectMsg env.counterID))) ∧
    (∀ r, env.isReplay = true → goMapLookup env.sideEffectResult env.counterID = some r →
      env.decisionsHelper.find (makeDecisionID .marker
        (sideEffectMarkerName ++ "_" ++ toString env.counterID)) = none →
      env.SideEffect f enc = .ok
        ({ env with
            counterID := int32Wrap (env.counterID + 1),
            decisionsHelper := { env.decisionsHelper with
              orderedDecisions := env.decisionsHelper.orderedDecisions ++
                [newMarkerDecisionStateMachine
                  (sideEffectMarkerName ++ "_" ++ toString env.counterID)
                  sideEffectMarkerName r] } },
          [⟨some r, none⟩])) ∧
    (∀ r d, env.isReplay = false → f = (r, none) → enc env.counterID r = .ok d →
      env.decisionsHelper.find (makeDecisionID .marker
        (sideEffectMarkerName ++ "_" ++ toString env.counterID)) = none →
      env.SideEffect f enc = .ok
        ({ env with
            counterID := int32Wrap (env.counterID + 1),
            decisionsHelper := { env.decisionsHelper with
              orderedDecisions := env.decisionsHelper.orderedDecisions ++
                [newMarkerDecisionStateMachine
                  (sideEffectMarkerName ++ "_" ++ toString env.counterID)
                  sideEffectMarkerName d] } },
          [⟨some r, none⟩])) ∧
    (∀ r e, env.isReplay = false → f = (r, some e) →
      env.SideEffect f enc =
        .ok ({ env with counterID := int32Wrap (env.counterID + 1) },
          [⟨some r, some e⟩])) := by
  refine ⟨?_, ?_, ?_, ?_⟩
  · intro hrep hmiss
    simp [WorkflowEnv.SideEffect, WorkflowEnv.GenerateSequence, hrep, hmiss]
  · intro r hrep hhit hfind
    simp [WorkflowEnv.SideEffect, WorkflowEnv.GenerateSequence, hrep, hhit,
      DecisionsHelper.recordSideEffectMarker, DecisionsHelper.addDecision,
      newMarkerDecisionStateMachine, newStateMachine, makeDecisionID] at hfind ⊢
    simp [hfind]
  · intro r d hrep hf henc hfind
    subst hf
    simp [WorkflowEnv.SideEffect, WorkflowEnv.GenerateSequence, hrep, henc,
      DecisionsHelper.recordSideEffectMarker, DecisionsHelper.addDecision,
      newMarkerDecisionStateMachine, newStateMachine, makeDecisionID] at hfind ⊢
    simp [hfind]
  · intro r e hrep hf
    subst hf
    simp [WorkflowEnv.SideEffect, WorkflowEnv.GenerateSequence, hrep]

/-- Concrete environments of the `sideEffect_cases` witness: a replay
environment whose cache holds result [7] for side-effect id 0, and a live
environment. -/
def witnessReplayEnv : WorkflowEnv :=
  ⟨0, true, 0, [(0, [7])], [], [], [], newDecisionsHelper⟩

def witnessLiveEnv : WorkflowEnv :=
  ⟨0, false, 0, [], [], [], [], newDecisionsHelper⟩

/-- Byte-pair encoder standing in for the default data converter in the
witnesses (prepends the id). -/
def witnessEncoder : Int → List Nat → Except String (List Nat) :=
  fun id data => .ok (id.natAbs :: data)

/-- Witness for `sideEffect_cases`: the replay hit returns the cached [7] and
records the marker; the live success encodes and records; the live failure
passes the error through; the replay miss panics. -/
theorem sideEffect_cases_witness :
    witnessReplayEnv.SideEffect ([], none) witnessEncoder =
      .ok ({ witnessReplayEnv with
              counterID := 1,
              decisionsHelper := { newDecisionsHelper with
                orderedDecisions :=
                  [newMarkerDecisionStateMachine "SideEffect_0" sideEffectMarkerName [7]] } },
        [⟨some [7], none⟩]) ∧
    witnessLiveEnv.SideEffect ([9], none) witnessEncoder =
      .ok ({ witnessLiveEnv with
              counterID := 1,
              decisionsHelper := { newDecisionsHelper with
                orderedDecisions :=
                  [newMarkerDecisionStateMachine "SideEffect_0" sideEffectMarkerName [0, 9]] } },
        [⟨some [9], none⟩]) ∧
    witnessLiveEnv.SideEffect ([], some (.errorTag "boom")) witnessEncoder =
      .ok ({ witnessLiveEnv with counterID := 1 }, [⟨some [], some (.errorTag "boom")⟩]) ∧
    { witnessReplayEnv with sideEffectResult := [] }.SideEffect ([], none) witnessEncoder =
      .error (.goPanic (noCachedSideEffectMsg 0)) := by
  refine ⟨?_, ?_, ?_, ?_⟩
  · exact (sideEffect_cases witnessReplayEnv ([], none) witnessEncoder).2.1 [7] rfl rfl rfl
  · exact (sideEffect_cases witnessLiveEnv ([9], none) witnessEncoder).2.2.1 [9] [0, 9]
      rfl rfl rfl rfl
  · exact (sideEffect_cases witnessLiveEnv ([], some (.errorTag "boom"))
      witnessEncoder).2.2.2 [] (.errorTag "boom") rfl rfl
  · exact (sideEffect_cases { witnessReplayEnv with sideEffectResult := [] }
      ([], none) witnessEncoder).1 rfl rfl

/-- A successful `validateVersion` is exactly a version inside the supported
range. -/
theorem validateVersion_ok_iff (changeID : String) (version minS maxS : Int) :
    validateVersion changeID version minS maxS = .ok () ↔
      minS ≤ version ∧ version ≤ maxS := by
  unfold validateVersion
  split
  · constructor
    · intro h; simp at h
    · intro h; omega
  · split
    · constructor
      · intro h; simp at h
      · intro h; omega
    · constructor
      · intro _; omega
      · intro _; rfl

/-- Appending a machine with a different key does not create a hit for a
missing key. -/
theorem find?_append_of_none (l : List StateMachine) (m : StateMachine) (id : DecisionID)
    (h : List.find? (fun x => decide (x.id = id)) l = none) (hm : ¬ m.id = id) :
    List.find? (fun x => decide (x.id = id)) (l ++ [m]) = none := by
  induction l with
  | nil => simp [List.find?, hm]
  | cons a as ih =>
      cases ha : decide (a.id = id) with
      | true => simp [List.find?, ha] at h
      | false =>
          simp only [List.cons_append, List.find?, ha] at h ⊢
          exact ih h

/-- The version marker machine recorded for a change id. -/
def versionMarkerMachine (changeID : String) (details : List Nat) : StateMachine :=
  newMarkerDecisionStateMachine (versionMarkerName ++ "_" ++ changeID) versionMarkerName details

/-- The search attribute upsert machine recorded for a change id at its
maximum version. -/
def changeVersionUpsertMachine (changeID : String) (version : Int) (attr : List Nat) :
    StateMachine :=
  newUpsertSearchAttributesStateMachine (getChangeVersion changeID version)
    [(CadenceChangeVersion, attr)]

/-- Claim C4: `GetVersion` returns an already recorded version after
validation; on first encounter it returns `DefaultVersion` (-1) when
replaying, and when live returns `maxSupported`, records a `Version` marker
decision and upserts the `CadenceChangeVersion` search attribute; in every
case a returned version lies in `[minSupported, maxSupported]` and a version
outside that range panics. -/
theorem getVersion_cases (env : WorkflowEnv) (changeID : String)
    (minSupported maxSupported : Int) (enc : String → Int → Except String (List Nat))
    (serializeSA : List String → Except String (List Nat)) :
    (∀ version, goMapLookup env.changeVersions changeID = some version →
      minSupported ≤ version → version ≤ maxSupported →
      env.GetVersion changeID minSupported maxSupported enc serializeSA =
        .ok (env, version)) ∧
    (∀ version, goMapLookup env.changeVersions changeID = some version →
      version < minSupported →
      env.GetVersion changeID minSupported maxSupported enc serializeSA =
        .error (.goPanic (versionTooLowMsg changeID version minSupported))) ∧
    (∀ version, goMapLookup env.changeVersions changeID = some version →
      minSupported ≤ version → maxSupported < version →
      env.GetVersion changeID minSupported maxSupported enc serializeSA =
        .error (.goPanic (versionTooHighMsg changeID version maxSupported))) ∧
    (goMapLookup env.changeVersions changeID = none → env.isReplay = true →
      minSupported ≤ DefaultVersion → DefaultVersion ≤ maxSupported →
      env.GetVersion changeID minSupported maxSupported enc serializeSA =
        .ok ({ env with changeVersions :=
                goMapInsert env.changeVersions changeID DefaultVersion }, DefaultVersion)) ∧
    (∀ details attr, goMapLookup env.changeVersions changeID = none →
      env.isReplay = false → minSupported ≤ maxSupported →
      enc changeID maxSupported = .ok details →
      serializeSA (getChangeVersions changeID maxSupported env.changeVersions) = .ok attr →
      env.decisionsHelper.find
        (makeDecisionID .marker (versionMarkerName ++ "_" ++ changeID)) = none →
      env.decisionsHelper.find
        (makeDecisionID .upsertSearchAttributes
          (getChangeVersion changeID maxSupported)) = none →
      env.GetVersion changeID minSupported maxSupported enc serializeSA =
        .ok ({ env with
                changeVersions := goMapInsert env.changeVersions changeID maxSupported,
                decisionsHelper := { env.decisionsHelper with
                  orderedDecisions := (env.decisionsHelper.orderedDecisions ++
                    [versionMarkerMachine changeID details]) ++
                    [changeVersionUpsertMachine changeID maxSupported attr] } },
          maxSupported)) ∧
    (∀ env' version, env.GetVersion changeID minSupported maxSupported enc serializeSA =
        .ok (env', version) →
      minSupported ≤ version ∧ version ≤ maxSupported) := by
  refine ⟨?_, ?_, ?_, ?_, ?_, ?_⟩
  · intro version hlook hmin hmax
    have hval : validateVersion changeID version minSupported maxSupported = .ok () :=
      (validateVersion_ok_iff changeID version minSupported maxSupported).mpr ⟨hmin, hmax⟩
    simp [WorkflowEnv.GetVersion, hlook, hval]
  · intro version hlook hlow
    have hval : validateVersion changeID version minSupported maxSupported =
        .error (.goPanic (versionTooLowMsg changeID version minSupported)) := by
      unfold validateVersion
      simp [hlow]
    simp [WorkflowEnv.GetVersion, hlook, hval]
  · intro version hlook hmin hhigh
    have hval : validateVersion changeID version minSupported maxSupported =
        .error (.goPanic (versionTooHighMsg changeID version maxSupported)) := by
      unfold validateVersion
      have h1 : ¬ version < minSupported := by omega
      have h2 : maxSupported < version := hhigh
      simp [h1, h2]
    simp [WorkflowEnv.GetVersion, hlook, hval]
  · intro hlook hrep hmin hmax
    have hval : validateVersion changeID DefaultVersion minSupported maxSupported = .ok () :=
      (validateVersion_ok_iff changeID DefaultVersion minSupported maxSupported).mpr
        ⟨hmin, hmax⟩
    simp [WorkflowEnv.GetVersion, hlook, hrep, hval]
  · intro details attr hlook hrep hminmax henc hser hfindM hfindU
    have hval : validateVersion changeID maxSupported minSupported maxSupported = .ok () :=
      (validateVersion_ok_iff changeID maxSupported minSupported maxSupported).mpr
        ⟨hminmax, le_refl _⟩
    have hvalues : getChangeVersions changeID maxSupported env.changeVersions =
        getChangeVersion changeID maxSupported ::
          env.changeVersions.map (fun p => getChangeVersion p.1 p.2) := rfl
    have hfindM2 : List.find? (fun x => decide (x.id =
        (⟨.marker, versionMarkerName ++ "_" ++ changeID⟩ : DecisionID)))
        env.decisionsHelper.orderedDecisions = none := hfindM
    have hfindU1 : List.find? (fun x => decide (x.id =
        (⟨.upsertSearchAttributes, getChangeVersion changeID maxSupported⟩ : DecisionID)))
        env.decisionsHelper.orderedDecisions = none := hfindU
    rw [hvalues] at hser
    simp [WorkflowEnv.GetVersion, hlook, hrep, hval, henc, hser, hvalues,
      DecisionsHelper.recordVersionMarker, DecisionsHelper.addDecision,
      WorkflowEnv.UpsertSearchAttributesChangeVersion,
      DecisionsHelper.upsertSearchAttributes, DecisionsHelper.find,
      newMarkerDecisionStateMachine, newUpsertSearchAttributesStateMachine, newStateMachine,
      versionMarkerMachine, changeVersionUpsertMachine, makeDecisionID, hfindM2, hfindU1]
  · intro env' version h
    unfold WorkflowEnv.GetVersion at h
    split at h
    · -- recorded version branch
      split at h
      · simp at h
      · rename_i u hval
        simp at h
        obtain ⟨-, hv⟩ := h
        subst hv
        exact (validateVersion_ok_iff _ _ _ _).mp (by cases u; exact hval)
    · -- first encounter
      split at h
      · -- replay branch
        split at h
        · simp at h
        · rename_i u hval
          simp at h
          obtain ⟨-, hv⟩ := h
          subst hv
          exact (validateVersion_ok_iff _ _ _ _).mp (by cases u; exact hval)
      · -- live branch
        split at h
        · simp at h
        · dsimp only at h
          split at h
          · simp at h
          · split at h
            · simp at h
            · rename_i u hval
              simp at h
              obtain ⟨-, hv⟩ := h
              subst hv
              exact (validateVersion_ok_iff _ _ _ _).mp (by cases u; exact hval)

/-- Concrete environments and converters of the `getVersion_cases` witness. -/
def witnessVersionEnvRecorded : WorkflowEnv :=
  ⟨0, false, 0, [], [("cid", 2)], [], [], newDecisionsHelper⟩

def witnessVersionEnvReplay : WorkflowEnv :=
  ⟨0, true, 0, [], [], [], [], newDecisionsHelper⟩

def witnessVersionEnvLive : WorkflowEnv :=
  ⟨0, false, 0, [], [], [], [], newDecisionsHelper⟩

def witnessVersionEncoder : String → Int → Except String (List Nat) :=
  fun _ v => .ok [v.natAbs]

def witnessSerializer : List String → Except String (List Nat) :=
  fun values => .ok [values.length]

/-- Witness for `getVersion_cases`: a recorded version inside the range is
returned; a recorded version below the minimum panics; the replay first
encounter records `DefaultVersion`; the live first encounter records the
marker, the upsert and `maxSupported`. -/
theorem getVersion_cases_witness :
    witnessVersionEnvRecorded.GetVersion "cid" 1 3 witnessVersionEncoder witnessSerializer =
      .ok (witnessVersionEnvRecorded, 2) ∧
    witnessVersionEnvRecorded.GetVersion "cid" 3 5 witnessVersionEncoder witnessSerializer =
      .error (.goPanic (versionTooLowMsg "cid" 2 3)) ∧
    witnessVersionEnvReplay.GetVersion "cid" (-1) 1 witnessVersionEncoder witnessSerializer =
      .ok ({ witnessVersionEnvReplay with changeVersions := [("cid", -1)] }, -1) ∧
    witnessVersionEnvLive.GetVersion "cid" 1 3 witnessVersionEncoder witnessSerializer =
      .ok ({ witnessVersionEnvLive with
              changeVersions := [("cid", 3)],
              decisionsHelper := { newDecisionsHelper with
                orderedDecisions := [versionMarkerMachine "cid" [3],
                  changeVersionUpsertMachine "cid" 3 [1]] } }, 3) := by
  refine ⟨?_, ?_, ?_, ?_⟩
  · exact (getVersion_cases witnessVersionEnvRecorded "cid" 1 3 witnessVersionEncoder
      witnessSerializer).1 2 rfl (by decide) (by decide)
  · exact (getVersion_cases witnessVersionEnvRecorded "cid" 3 5 witnessVersionEncoder
      witnessSerializer).2.1 2 rfl (by decide)
  · exact (getVersion_cases witnessVersionEnvReplay "cid" (-1) 1 witnessVersionEncoder
      witnessSerializer).2.2.2.1 rfl rfl (by decide) (by decide)
  · exact (getVersion_cases witnessVersionEnvLive "cid" 1 3 witnessVersionEncoder
      witnessSerializer).2.2.2.2.1 [3] [1] rfl rfl (by decide) rfl rfl rfl rfl

/-! ### C5: RequestCancelActivity after activity completion -/

/-- Start of the C5 run: a fresh live environment. -/
def c5env0 : WorkflowEnv := ⟨0, false, 0, [], [], [], [], newDecisionsHelper⟩

/-- The C5 run after `ExecuteActivity` with activity id "A". -/
def c5env1 : WorkflowEnv :=
  { c5env0 with decisionsHelper := { newDecisionsHelper with
      orderedDecisions :=
        [⟨.activity "A", makeDecisionID .activity "A", .created, ["Created"], false,
          .activity ⟨false, false⟩⟩] } }

/-- The helper after the schedule decision was sent. -/
def c5helper2 : DecisionsHelper :=
  { newDecisionsHelper with
    orderedDecisions :=
      [⟨.activity "A", makeDecisionID .activity "A", .decisionSent,
        ["Created", "handleDecisionSent", "DecisionSent"], false,
        .activity ⟨false, false⟩⟩] }

/-- The helper after the `ActivityTaskScheduled` history event (scheduled
event id 5). -/
def c5helper3 : DecisionsHelper :=
  ⟨[⟨.activity "A", makeDecisionID .activity "A", .initiated,
      ["Created", "handleDecisionSent", "DecisionSent", "handleInitiatedEvent", "Initiated"],
      false, .activity ⟨false, false⟩⟩],
    [(5, "A")], [], []⟩

/-- The environment after the activity completed: the machine reached
`Completed` and was removed from the collection. -/
def completedActivityEnv : WorkflowEnv :=
  { c5env0 with decisionsHelper := ⟨[], [(5, "A")], [], []⟩ }

/-- Counterexample to claim C5 as stated: running activity "A" to the
terminal `Completed` state removes its machine from the collection
(`moveState`), after which `RequestCancelActivity "A"` is not a no-op — it
raises the "unknown decision" illegal-state panic inside
`decisionsHelper.getDecision`. -/
theorem requestCancelActivity_after_completed_panics :
    c5env0.ExecuteActivity (some "A") false = .ok (c5env1, "A") ∧
    c5env1.decisionsHelper.getDecisions true = ([.scheduleActivityTask "A"], c5helper2) ∧
    c5helper2.handleActivityTaskScheduled 5 "A" = .ok c5helper3 ∧
    ({ c5env1 with decisionsHelper := c5helper3 } : WorkflowEnv).handleActivityTaskCompleted
        5 [1, 2] = .ok (completedActivityEnv, [⟨some [1, 2], none⟩]) ∧
    completedActivityEnv.decisionsHelper.orderedDecisions = [] ∧
    completedActivityEnv.RequestCancelActivity "A" =
      .error (.illegalState (unknownDecisionMsg (makeDecisionID .activity "A"))) :=
  ⟨rfl, rfl, rfl, rfl, rfl, rfl⟩

theorem mem_eraseById (l : List StateMachine) (id : DecisionID) (x : StateMachine)
    (hx : x ∈ eraseById l id) : x ∈ l := by
  induction l with
  | nil => simp [eraseById] at hx
  | cons a as ih =>
      by_cases ha : a.id = id
      · simp [eraseById, ha] at hx
        exact List.mem_cons_of_mem a hx
      · simp [eraseById, ha] at hx
        rcases hx with hx | hx
        · exact hx ▸ List.mem_cons_self a as
        · exact List.mem_cons_of_mem a (ih hx)

theorem dropLast_append_single {α : Type} (l : List α) (a : α) : (l ++ [a]).dropLast = l := by
  simp

/-- Claim C5 (amended): any machine that reaches the terminal `Completed`
state through a routed event is dropped from the collection, so for an
activity whose machine completed the id is absent and `RequestCancelActivity`
raises the "unknown decision" illegal-state panic; the claimed no-op holds
instead for an activity machine still in the collection in state
`CompletedAfterCancellationDecisionSent` with its waiter already handled: no
panic, no callback, no pending decision, the machine is only moved to the back
of the list. -/
theorem requestCancelActivity_completed_amended :
    (∀ (h : DecisionsHelper) (id : DecisionID) (f : StateMachine → Except Panic StateMachine)
        (h' : DecisionsHelper) (m' : StateMachine),
      h.withDecision id f = .ok (h', m') →
      (∀ x ∈ h.orderedDecisions, x.state ≠ .completed) →
      ∀ x ∈ h'.orderedDecisions, x.state ≠ .completed) ∧
    (∀ (env : WorkflowEnv) (activityID : String),
      env.decisionsHelper.find (makeDecisionID .activity activityID) = none →
      env.RequestCancelActivity activityID =
        .error (.illegalState (unknownDecisionMsg (makeDecisionID .activity activityID)))) ∧
    (∀ (env : WorkflowEnv) (activityID : String) (m : StateMachine) (a : ScheduledActivity),
      env.decisionsHelper.find (makeDecisionID .activity activityID) = some m →
      m.kind = .activity activityID → m.state = .completedAfterCancellationDecisionSent →
      m.data = .activity a → a.handled = true →
      env.RequestCancelActivity activityID =
        .ok ({ env with decisionsHelper := { env.decisionsHelper with
                orderedDecisions := eraseById env.decisionsHelper.orderedDecisions
                  (makeDecisionID .activity activityID) ++ [m] } }, []) ∧
      m.getDecision = none) := by
  refine ⟨?_, ?_, ?_⟩
  · intro h id f h' m' hw hinv x hx
    unfold DecisionsHelper.withDecision DecisionsHelper.getDecision at hw
    cases hfind : h.find id with
    | none => rw [hfind] at hw; simp at hw
    | some m =>
        rw [hfind] at hw
        simp only at hw
        cases hf : f m with
        | error e => rw [hf] at hw; simp at hw
        | ok m1 =>
            rw [hf] at hw
            simp only [Except.ok.injEq, Prod.mk.injEq] at hw
            obtain ⟨hh, -⟩ := hw
            subst hh
            simp only [DecisionsHelper.storeBack, dropLast_append_single] at hx
            rcases List.mem_append.mp hx with hx1 | hx2
            · exact hinv x (mem_eraseById _ _ x hx1)
            · by_cases hc : m1.state = .completed
              · simp [hc] at hx2
              · simp [hc] at hx2
                exact hx2 ▸ hc
  · intro env activityID hfind
    simp [WorkflowEnv.RequestCancelActivity, DecisionsHelper.requestCancelActivityTask,
      DecisionsHelper.withDecision, DecisionsHelper.getDecision, hfind]
  · intro env activityID m a hfind hkind hstate hdata hhandled
    have hcancel : m.cancel = .ok m := by
      unfold StateMachine.cancel
      rw [hkind]
      unfold StateMachine.baseCancel
      rw [hstate]
    have hnc : ¬ m.state = .completed := by rw [hstate]; intro hh; cases hh
    constructor
    · simp [WorkflowEnv.RequestCancelActivity, DecisionsHelper.requestCancelActivityTask,
        DecisionsHelper.withDecision, DecisionsHelper.getDecision, hfind, hcancel,
        DecisionsHelper.storeBack, dropLast_append_single, hnc, hdata, hhandled]
    · unfold StateMachine.getDecision
      rw [hkind, hstate]

/-- Machine of the no-op case of the C5 witness: an activity "B" in state
`CompletedAfterCancellationDecisionSent` whose waiter is handled. -/
def c5noopMachine : StateMachine :=
  ⟨.activity "B", makeDecisionID .activity "B", .completedAfterCancellationDecisionSent,
    [], false, .activity ⟨true, false⟩⟩

/-- Environment of the no-op case of the C5 witness. -/
def c5noopEnv : WorkflowEnv :=
  { c5env0 with decisionsHelper := ⟨[c5noopMachine], [], [], []⟩ }

/-- Witness for `requestCancelActivity_completed_amended` at concrete inputs:
the environment of the counterexample run for the panic case, and a machine in
`CompletedAfterCancellationDecisionSent` for the no-op case. -/
theorem requestCancelActivity_completed_amended_witness :
    completedActivityEnv.RequestCancelActivity "A" =
      .error (.illegalState (unknownDecisionMsg (makeDecisionID .activity "A"))) ∧
    c5noopEnv.RequestCancelActivity "B" = .ok (c5noopEnv, []) := by
  constructor
  · exact (requestCancelActivity_completed_amended).2.1 completedActivityEnv "A" rfl
  · exact ((requestCancelActivity_completed_amended).2.2 c5noopEnv "B" c5noopMachine
      ⟨true, false⟩ rfl rfl rfl rfl rfl).1

/-! ### C6: timer cancelled before its TimerStarted event -/

/-- Whether a decision is a `CancelTimerDecisionAttributes` payload. -/
def Decision.isCancelTimer : Decision → Bool
  | .cancelTimer _ => true
  | _ => false

/-- Start of the C6 run: a live environment whose next sequence id is 5. -/
def c6env0 : WorkflowEnv := ⟨5, false, 0, [], [], [], [], newDecisionsHelper⟩

/-- Timer machine "5" of the C6 run at a given state, history, waiter flag
and cancel flag. -/
def c6timer (st : DecisionState) (hist : List String) (handled canceled : Bool) :
    StateMachine :=
  ⟨.timer "5", makeDecisionID .timer "5", st, hist, canceled, .timer ⟨handled⟩⟩

/-- The C6 run after `NewTimer`. -/
def c6env1 : WorkflowEnv :=
  { c6env0 with
      counterID := 6,
      decisionsHelper := { newDecisionsHelper with
        orderedDecisions := [c6timer .created ["Created"] false false] } }

/-- The helper after the start decision was sent. -/
def c6helper2 : DecisionsHelper :=
  { newDecisionsHelper with
    orderedDecisions := [c6timer .decisionSent
      ["Created", "handleDecisionSent", "DecisionSent"] false false] }

/-- The C6 run after `RequestCancelTimer` (decision task not yet over). -/
def c6env3 : WorkflowEnv :=
  { c6env1 with decisionsHelper := { newDecisionsHelper with
      orderedDecisions := [c6timer .canceledBeforeInitiated
        ["Created", "handleDecisionSent", "DecisionSent", "cancel", "CanceledBeforeInitiated"]
        true true] } }

/-- The helper after the `TimerStarted` history event. -/
def c6helper4 : DecisionsHelper :=
  { newDecisionsHelper with
    orderedDecisions := [c6timer .canceledAfterInitiated
      ["Created", "handleDecisionSent", "DecisionSent", "cancel", "CanceledBeforeInitiated",
        "handleInitiatedEvent", "CanceledAfterInitiated"] true true] }

/-- The helper after the cancel decision was sent. -/
def c6helper5 : DecisionsHelper :=
  { newDecisionsHelper with
    orderedDecisions := [c6timer .cancellationDecisionSent
      ["Created", "handleDecisionSent", "DecisionSent", "cancel", "CanceledBeforeInitiated",
        "handleInitiatedEvent", "CanceledAfterInitiated", "handleDecisionSent",
        "CancellationDecisionSent"] true true] }

set_option linter.unnecessarySeqFocus false in
/-- Claim C6: a timer cancelled before its `TimerStarted` event is applied
follows exactly `Created → DecisionSent → CanceledBeforeInitiated →
CanceledAfterInitiated → CancellationDecisionSent → Completed` without an
illegal-state panic; `getDecision` yields a `CancelTimer` decision only in
`CanceledAfterInitiated`, so the run emits exactly one `CancelTimer`
decision. -/
theorem timer_cancel_before_initiated_run :
    c6env0.NewTimer = .ok (c6env1, "5") ∧
    c6env1.decisionsHelper.getDecisions true = ([.startTimer "5"], c6helper2) ∧
    ({ c6env1 with decisionsHelper := c6helper2 } : WorkflowEnv).RequestCancelTimer "5" =
      .ok (c6env3, [⟨none, some .canceled⟩]) ∧
    c6env3.decisionsHelper.handleTimerStarted "5" = .ok c6helper4 ∧
    c6helper4.getDecisions true = ([.cancelTimer "5"], c6helper5) ∧
    c6helper5.handleTimerCanceled "5" = .ok ⟨[], [], [], []⟩ ∧
    (([Decision.startTimer "5"] ++ [Decision.cancelTimer "5"]).countP
      Decision.isCancelTimer = 1) ∧
    (∀ (m : StateMachine) (timerID d : String), m.kind = .timer timerID →
      (m.getDecision = some (.cancelTimer d) ↔
        (m.state = .canceledAfterInitiated ∧ d = timerID))) := by
  refine ⟨rfl, rfl, rfl, rfl, rfl, rfl, rfl, ?_⟩
  intro m timerID d hk
  unfold StateMachine.getDecision
  rw [hk]
  cases hstate : m.state <;> simp [hstate] <;> exact eq_comm

/-- Witness for `timer_cancel_before_initiated_run`: the general
`getDecision` characterisation applied to the concrete machine of the run in
state `CanceledAfterInitiated`. -/
theorem timer_cancel_before_initiated_run_witness :
    (c6timer .canceledAfterInitiated
      ["Created", "handleDecisionSent", "DecisionSent", "cancel", "CanceledBeforeInitiated",
        "handleInitiatedEvent", "CanceledAfterInitiated"] true true).getDecision =
      some (.cancelTimer "5") := by
  exact (timer_cancel_before_initiated_run.2.2.2.2.2.2.2 _ "5" "5" rfl).mpr ⟨rfl, rfl⟩

/-! ### C1: collection ordering -/

/-- Decomposition of a successful `find?` by decision id: the list splits at
the first machine carrying the id, and `eraseById` removes exactly that
occurrence. -/
theorem find?_eraseById_decomp (l : List StateMachine) (id : DecisionID) (m : StateMachine)
    (hfind : l.find? (fun x => decide (x.id = id)) = some m) :
    m.id = id ∧ ∃ l1 l2, l = l1 ++ m :: l2 ∧ (∀ x ∈ l1, x.id ≠ id) ∧
      eraseById l id = l1 ++ l2 := by
  induction l with
  | nil => simp [List.find?] at hfind
  | cons a as ih =>
      by_cases ha : a.id = id
      · rw [List.find?_cons_of_pos _ (by simpa using ha)] at hfind
        obtain rfl : a = m := by simpa using hfind
        exact ⟨ha, [], as, by simp, by simp, by simp [eraseById, ha]⟩
      · rw [List.find?_cons_of_neg _ (by simpa using ha)] at hfind
        obtain ⟨hm, l1, l2, hl, hl1, he⟩ := ih hfind
        refine ⟨hm, a :: l1, l2, by simp [hl], ?_, by simp [eraseById, ha, he]⟩
        intro x hx
        rcases List.mem_cons.mp hx with hx | hx
        · exact hx ▸ ha
        · exact hl1 x hx

/-- The decision payloads collected by the `getDecisions` loop are exactly
the pending decisions of the machines in list order. -/
theorem getDecisionsLoop_fst (markAsSent : Bool) (l : List StateMachine) :
    (getDecisionsLoop markAsSent l).1 = l.filterMap StateMachine.getDecision := by
  induction l with
  | nil => rfl
  | cons m rest ih =>
      simp only [getDecisionsLoop, ih, List.filterMap_cons]
      cases m.getDecision <;> simp

/-- The machines surviving the `getDecisions` loop are the (optionally
marked-as-sent) machines whose state is not `Completed`, in list order. -/
theorem getDecisionsLoop_snd (markAsSent : Bool) (l : List StateMachine) :
    (getDecisionsLoop markAsSent l).2 =
      (l.map (fun m => if markAsSent then m.handleDecisionSent else m)).filter
        (fun x => decide (x.state ≠ .completed)) := by
  induction l with
  | nil => rfl
  | cons m rest ih =>
      simp only [getDecisionsLoop, ih, List.map_cons, List.filter_cons]
      by_cases hc : (if markAsSent then m.handleDecisionSent else m).state = .completed
      · simp [hc]
      · simp [hc]

/-- Claim C1: `getDecision` moves the routed machine to the back of the
insertion-ordered list, preserving the relative order of the other machines;
`getDecisions` traverses the list front to back, collecting each machine's
pending decision in that order, and removes the machines whose state is
`Completed` (after the optional `handleDecisionSent`). -/
theorem decision_list_ordering (h h' : DecisionsHelper) (id : DecisionID)
    (m : StateMachine) (markAsSent : Bool) :
    (h.getDecision id = .ok (h', m) →
      m.id = id ∧
      ∃ l1 l2, h.orderedDecisions = l1 ++ m :: l2 ∧ (∀ x ∈ l1, x.id ≠ id) ∧
        h'.orderedDecisions = (l1 ++ l2) ++ [m]) ∧
    ((h.getDecisions markAsSent).1 =
      h.orderedDecisions.filterMap StateMachine.getDecision) ∧
    ((h.getDecisions true).2.orderedDecisions =
      (h.orderedDecisions.map StateMachine.handleDecisionSent).filter
        (fun x => decide (x.state ≠ .completed))) ∧
    ((h.getDecisions false).2.orderedDecisions =
      h.orderedDecisions.filter (fun x => decide (x.state ≠ .completed))) := by
  refine ⟨?_, ?_, ?_, ?_⟩
  · intro hget
    unfold DecisionsHelper.getDecision at hget
    cases hfind : h.find id with
    | none => rw [hfind] at hget; simp at hget
    | some m0 =>
        rw [hfind] at hget
        simp only [Except.ok.injEq, Prod.mk.injEq] at hget
        obtain ⟨hh, hm⟩ := hget
        subst hm
        obtain ⟨hid, l1, l2, hl, hl1, he⟩ := find?_eraseById_decomp
          h.orderedDecisions id m0 hfind
        refine ⟨hid, l1, l2, hl, hl1, ?_⟩
        rw [← hh]
        simp [he]
  · simp only [DecisionsHelper.getDecisions]
    exact getDecisionsLoop_fst markAsSent h.orderedDecisions
  · simp only [DecisionsHelper.getDecisions]
    exact getDecisionsLoop_snd true h.orderedDecisions
  · have h0 := getDecisionsLoop_snd false h.orderedDecisions
    simp only [DecisionsHelper.getDecisions]
    simpa using h0

/-- Witness for `decision_list_ordering`: routing to timer "2" in a
three-machine helper moves it behind activity "1" and timer "3". -/
theorem decision_list_ordering_witness :
    (⟨[newActivityDecisionStateMachine "1", newTimerDecisionStateMachine "2",
        newTimerDecisionStateMachine "3"], [], [], []⟩ : DecisionsHelper).getDecision
      (makeDecisionID .timer "2") =
      .ok (⟨[newActivityDecisionStateMachine "1", newTimerDecisionStateMachine "3",
        newTimerDecisionStateMachine "2"], [], [], []⟩, newTimerDecisionStateMachine "2") ∧
    (newTimerDecisionStateMachine "2").id = makeDecisionID .timer "2" := by
  refine ⟨rfl, ?_⟩
  exact (decision_list_ordering
    ⟨[newActivityDecisionStateMachine "1", newTimerDecisionStateMachine "2",
      newTimerDecisionStateMachine "3"], [], [], []⟩
    ⟨[newActivityDecisionStateMachine "1", newTimerDecisionStateMachine "3",
      newTimerDecisionStateMachine "2"], [], [], []⟩
    (makeDecisionID .timer "2") (newTimerDecisionStateMachine "2") true).1 rfl |>.1

/-! ### C2: at-most-once waiter resumption -/

/-- Claim C2: each scheduled waiter's `handled` flag transitions false → true
at most once and its callback fires at most once: `handle` with `handled`
already true panics, `handle` with `handled` false flips the flag and fires
the callback exactly once, and every modelled event-handler path checks
`handled` first and silently returns (no callback) when it is already true. -/
theorem waiter_at_most_once (env : WorkflowEnv) :
    (∀ (s : ScheduledActivity) r e,
      (s.handled = true → s.handle r e = .error (.goPanic "activity already handled")) ∧
      (s.handled = false → s.handle r e = .ok ({ s with handled := true }, ⟨r, e⟩))) ∧
    (∀ (s : ScheduledTimer) r e,
      (s.handled = true → s.handle r e = .error (.goPanic "timer already handled")) ∧
      (s.handled = false → s.handle r e = .ok ({ s with handled := true }, ⟨r, e⟩))) ∧
    (∀ (s : ScheduledChildWorkflow) r e,
      (s.handled = true →
        s.handle r e = .error (.goPanic "child workflow already handled")) ∧
      (s.handled = false → s.handle r e = .ok ({ s with handled := true }, ⟨r, e⟩))) ∧
    (∀ (s : ScheduledCancellation) r e,
      (s.handled = true →
        s.handle r e = .error (.goPanic "cancellation already handled")) ∧
      (s.handled = false → s.handle r e = .ok ({ s with handled := true }, ⟨r, e⟩))) ∧
    (∀ (s : ScheduledSignal) r e,
      (s.handled = true → s.handle r e = .error (.goPanic "signal already handled")) ∧
      (s.handled = false → s.handle r e = .ok ({ s with handled := true }, ⟨r, e⟩))) ∧
    (∀ scheduledEventID r activityID h' m' a,
      env.decisionsHelper.getActivityID scheduledEventID = .ok activityID →
      env.decisionsHelper.handleActivityTaskClosed activityID = .ok (h', m') →
      m'.data = .activity a → a.handled = true →
      env.handleActivityTaskCompleted scheduledEventID r =
        .ok ({ env with decisionsHelper := h' }, [])) ∧
    (∀ scheduledEventID activityID h' m' a,
      env.decisionsHelper.getActivityID scheduledEventID = .ok activityID →
      env.decisionsHelper.handleActivityTaskCanceled activityID = .ok (h', m') →
      m'.data = .activity a → a.handled = true →
      env.handleActivityTaskCanceled scheduledEventID =
        .ok ({ env with decisionsHelper := h' }, [])) ∧
    (∀ timerID h' m' t,
      env.decisionsHelper.handleTimerClosed timerID = .ok (h', m') →
      m'.data = .timer t → t.handled = true →
      env.handleTimerFired timerID = .ok ({ env with decisionsHelper := h' }, [])) ∧
    (∀ activityID h' m' a,
      env.decisionsHelper.requestCancelActivityTask activityID = .ok (h', m') →
      m'.data = .activity a → a.handled = true →
      env.RequestCancelActivity activityID = .ok ({ env with decisionsHelper := h' }, [])) ∧
    (∀ timerID h' m' t,
      env.decisionsHelper.cancelTimer timerID = .ok (h', m') →
      m'.data = .timer t → t.handled = true →
      env.RequestCancelTimer timerID = .ok ({ env with decisionsHelper := h' }, [])) ∧
    (∀ workflowID r h' m' c,
      env.decisionsHelper.handleChildWorkflowExecutionClosed workflowID = .ok (h', m') →
      m'.data = .childWorkflow c → c.handled = true →
      env.handleChildWorkflowExecutionCompleted workflowID r =
        .ok ({ env with decisionsHelper := h' }, [])) ∧
    (∀ initiatedEventID h' m' s,
      env.decisionsHelper.handleSignalExternalWorkflowExecutionCompleted initiatedEventID =
        .ok (h', m') →
      m'.data = .signal s → s.handled = true →
      env.handleSignalExternalWorkflowExecutionCompleted initiatedEventID =
        .ok ({ env with decisionsHelper := h' }, [])) ∧
    (∀ initiatedEventID workflowID h' m' c,
      env.decisionsHelper.handleExternalWorkflowExecutionCancelRequested initiatedEventID
        workflowID = .ok (h', true, m') →
      m'.data = .cancellation c → c.handled = true →
      env.handleExternalWorkflowExecutionCancelRequested initiatedEventID workflowID =
        .ok ({ env with decisionsHelper := h' }, [])) := by
  refine ⟨?_, ?_, ?_, ?_, ?_, ?_, ?_, ?_, ?_, ?_, ?_, ?_, ?_⟩
  · intro s r e
    exact ⟨fun hh => by simp [ScheduledActivity.handle, hh],
      fun hh => by simp [ScheduledActivity.handle, hh]⟩
  · intro s r e
    exact ⟨fun hh => by simp [ScheduledTimer.handle, hh],
      fun hh => by simp [ScheduledTimer.handle, hh]⟩
  · intro s r e
    exact ⟨fun hh => by simp [ScheduledChildWorkflow.handle, hh],
      fun hh => by simp [ScheduledChildWorkflow.handle, hh]⟩
  · intro s r e
    exact ⟨fun hh => by simp [ScheduledCancellation.handle, hh],
      fun hh => by simp [ScheduledCancellation.handle, hh]⟩
  · intro s r e
    exact ⟨fun hh => by simp [ScheduledSignal.handle, hh],
      fun hh => by simp [ScheduledSignal.handle, hh]⟩
  · intro seid r aid h' m' a hga hc hdata hh
    simp [WorkflowEnv.handleActivityTaskCompleted, hga, hc, hdata, hh]
  · intro seid aid h' m' a hga hc hdata hh
    simp [WorkflowEnv.handleActivityTaskCanceled, hga, hc, hdata, hh]
  · intro timerID h' m' t hc hdata hh
    simp [WorkflowEnv.handleTimerFired, hc, hdata, hh]
  · intro aid h' m' a hc hdata hh
    simp [WorkflowEnv.RequestCancelActivity, hc, hdata, hh]
  · intro timerID h' m' t hc hdata hh
    simp [WorkflowEnv.RequestCancelTimer, hc, hdata, hh]
  · intro workflowID r h' m' c hc hdata hh
    simp [WorkflowEnv.handleChildWorkflowExecutionCompleted, hc, hdata, hh]
  · intro initiatedEventID h' m' s hc hdata hh
    simp [WorkflowEnv.handleSignalExternalWorkflowExecutionCompleted, hc, hdata, hh]
  · intro initiatedEventID workflowID h' m' c hc hdata hh
    simp [WorkflowEnv.handleExternalWorkflowExecutionCancelRequested, hc, hdata, hh]

/-- Timer machine of the C2 witness: initiated, waiter already handled (the
post-cancel race shape). -/
def c2timerMachine : StateMachine :=
  ⟨.timer "5", makeDecisionID .timer "5", .initiated, [], false, .timer ⟨true⟩⟩

/-- Environment of the C2 witness. -/
def c2env : WorkflowEnv := ⟨0, false, 0, [], [], [], [], ⟨[c2timerMachine], [], [], []⟩⟩

/-- Witness for `waiter_at_most_once`: a handled timer waiter panics on a
direct second `handle`; an unhandled activity waiter resumes exactly once; a
`TimerFired` event for an already-handled timer is a silent no-op. -/
theorem waiter_at_most_once_witness :
    (⟨true⟩ : ScheduledTimer).handle none none =
      .error (.goPanic "timer already handled") ∧
    (⟨false, false⟩ : ScheduledActivity).handle none (some .canceled) =
      .ok (⟨true, false⟩, ⟨none, some .canceled⟩) ∧
    c2env.handleTimerFired "5" =
      .ok ({ c2env with decisionsHelper := ⟨[], [], [], []⟩ }, []) := by
  refine ⟨?_, ?_, ?_⟩
  · exact ((waiter_at_most_once c2env).2.1 ⟨true⟩ none none).1 rfl
  · exact ((waiter_at_most_once c2env).1 ⟨false, false⟩ none (some .canceled)).2 rfl
  · exact (waiter_at_most_once c2env).2.2.2.2.2.2.2.1 "5" ⟨[], [], [], []⟩
      (c2timerMachine.moveState .completed eventCompletion) ⟨true⟩ rfl rfl rfl

end Cadence
